import Mathlib

/-!
Verification development for the feo language front end (lexer, parser,
AST printer).  The Rust sources `src/lexer.rs`, `src/parser.rs`,
`src/ast.rs` and `src/debug.rs` are shallowly embedded below: every
struct field and every control-flow branch is translated one to one.
Machine behaviour that Rust models with a panic (`Vec` indexing out of
bounds, `Option::unwrap` on `None`) is modelled with an explicit
`panic` result constructor, and the `while` loops of the sources are
driven by an explicit fuel parameter, so that a run that exhausts any
amount of fuel is a non-terminating run of the original program.
-/

/-- TokenType is the closed token-kind enum of the `token.rs` data
contract; the constructor list is reconstructed from every use site in
`lexer.rs` and `parser.rs` plus the keyword list of the spec. -/
inductive TokenType where
  | LParen | RParen | LBrace | RBrace | LBracket | RBracket
  | Colon | SColon | At | Caret | Comma | Dot
  | Plus | DPlus | PlusEq | Minus | DMinus | MinusEq
  | Mul | MulEq | Div | DivEq | Mod | ModEq
  | RPipe | DPipe | LPipe | LT | LTEq | GT | GTEq
  | Bang | BangEq | Equal | DEq | DAmp
  | And | Or
  | Func | Class | Static | Var | Const | If | Else | For | While
  | Super | This | Return | Continue | Break | True | False | Null | Import
  | Struct
  | Num | Str | Id | Atom | Underscore
  | EOF
deriving DecidableEq, Repr

/-- Token is the `token.rs` data contract: kind, literal text, and the
1-based source position (the Rust `position` tuple is modelled as the
two fields `line` and `col`). -/
structure Token where
  kind : TokenType
  value : String
  line : Nat
  col : Nat
deriving DecidableEq, Repr

/-- ParserError is the `error.rs` data contract: a diagnostic message
with its 1-based source position. -/
structure ParserError where
  message : String
  line : Nat
  col : Nat
deriving DecidableEq, Repr

/-- LexerSt is the `Lexer` struct of `lexer.rs`: diagnostics, source
text (as a character list, mirroring `source.chars()`), the tokens
produced so far, the 1-based position, the cursor `c` and the cached
`current` character. -/
structure LexerSt where
  errors : List ParserError
  source : List Char
  tokens : List Token
  line : Nat
  col : Nat
  c : Nat
  current : Char
deriving DecidableEq, Repr

/-- Res is the outcome of a fuel-driven lexer computation: a normal
result, a Rust panic (carrying the lexer state at the moment of the
panic), or fuel exhaustion (`out`), which witnesses non-termination
when it holds for every fuel. -/
inductive Res (α : Type) where
  | ok : α → Res α
  | panic : LexerSt → Res α
  | out : Res α
deriving DecidableEq

/-- Lexer.new mirrors `Lexer::new`. -/
def Lexer.new (source : List Char) : LexerSt :=
  ⟨[], source, [], 1, 1, 0, ' '⟩

/-- Lexer.is_end mirrors `Lexer::is_end`: the literal translation of
`self.source.len() <= self.c && !(self.source.len() <= self.c + 1)`. -/
def Lexer.is_end (l : LexerSt) : Bool :=
  decide (l.source.length ≤ l.c) && !(decide (l.source.length ≤ l.c + 1))

/-- Lexer.advance mirrors `Lexer::advance`; `none` is the panic of
`self.source.chars().nth(self.c).unwrap()` on a missing character. -/
def Lexer.advance (l : LexerSt) : Option LexerSt :=
  if !(Lexer.is_end l) then
    let l := if l.current = '\n'
      then { l with line := l.line + 1, col := 1 }
      else { l with col := l.col + 1 }
    match l.source.get? (l.c + 1) with
    | some ch => some { l with c := l.c + 1, current := ch }
    | none => none
  else
    some { l with c := l.source.length }

/-- Lexer.next_char mirrors `Lexer::next_char`; `none` is the panic of
the `unwrap` on a missing character. -/
def Lexer.next_char (l : LexerSt) : Option Char :=
  if Lexer.is_end l then some '\x00' else l.source.get? (l.c + 1)

/-- Lexer.add_token mirrors `Lexer::add_token`. -/
def Lexer.add_token (l : LexerSt) (kind : TokenType) (value : String) : LexerSt :=
  { l with tokens := l.tokens ++ [⟨kind, value, l.line, l.col⟩] }

/-- Lexer.add_no_value_token mirrors `Lexer::add_no_value_token`. -/
def Lexer.add_no_value_token (l : LexerSt) (kind : TokenType) : LexerSt :=
  Lexer.add_token l kind ""

/-- Lexer.add_error mirrors `Lexer::add_error`. -/
def Lexer.add_error (l : LexerSt) (msg : String) : LexerSt :=
  { l with errors := l.errors ++ [⟨msg, l.line, l.col⟩] }

/-- Lexer.keyword mirrors `Lexer::keyword`, the fixed keyword table. -/
def Lexer.keyword (value : String) : Option TokenType :=
  match value with
  | "fn" => some .Func
  | "class" => some .Class
  | "static" => some .Static
  | "let" => some .Var
  | "const" => some .Const
  | "if" => some .If
  | "else" => some .Else
  | "for" => some .For
  | "while" => some .While
  | "super" => some .Super
  | "this" => some .This
  | "return" => some .Return
  | "continue" => some .Continue
  | "break" => some .Break
  | "true" => some .True
  | "false" => some .False
  | "null" => some .Null
  | "import" => some .Import
  | _ => none

/-- liftAdv wraps `Lexer.advance` into a `Res`, turning the `unwrap`
panic into `Res.panic` carrying the state before the failing advance. -/
def Lexer.liftAdv (l : LexerSt) : Res LexerSt :=
  match Lexer.advance l with
  | some l' => Res.ok l'
  | none => Res.panic l

/-- two_char emits a two-character operator token exactly as the Rust
arms do: `add_no_value_token(kind)` followed by `advance()`. -/
def Lexer.two_char (l : LexerSt) (kind : TokenType) : Res LexerSt :=
  Lexer.liftAdv (Lexer.add_no_value_token l kind)

/-- ident_loop mirrors the identifier-collection `while` loop of
`Lexer::tokenize` (push the current character, then advance). -/
def Lexer.ident_loop : Nat → LexerSt → String → Res (LexerSt × String)
  | 0, _, _ => Res.out
  | fuel + 1, l, var =>
    if !(Lexer.is_end l) && (l.current.isAlphanum || l.current = '_') then
      match Lexer.advance l with
      | none => Res.panic l
      | some l' => Lexer.ident_loop fuel l' (var.push l.current)
    else
      Res.ok (l, var)

/-- make_normal_number mirrors `Lexer::make_normal_number`, including
the loop-carried `had_dot` flag and the lazy `next_char` call of the
dot check. -/
def Lexer.make_normal_number : Nat → LexerSt → String → Bool → Res (LexerSt × String)
  | 0, _, _, _ => Res.out
  | fuel + 1, l, number, had_dot =>
    if !(Lexer.is_end l) && l.current.isDigit then
      let number := number.push l.current
      match Lexer.advance l with
      | none => Res.panic l
      | some l' =>
        if l'.current = '.' then
          match Lexer.next_char l' with
          | none => Res.panic l'
          | some nc =>
            if nc.isDigit then
              if had_dot then
                Lexer.make_normal_number fuel (Lexer.add_error l' "invalid dot") number had_dot
              else
                Lexer.make_normal_number fuel l' (number.push '.') Bool.true
            else
              Lexer.make_normal_number fuel l' number had_dot
        else
          Lexer.make_normal_number fuel l' number had_dot
    else
      Res.ok (l, number)

/-- is_ascii_hexdigit mirrors Rust's `char::is_ascii_hexdigit`. -/
def Lexer.is_ascii_hexdigit (ch : Char) : Bool :=
  ch.isDigit || ('a' ≤ ch && ch ≤ 'f') || ('A' ≤ ch && ch ≤ 'F')

/-- hex_loop mirrors the hex-digit `while` loop of `Lexer::tokenize`;
note that, like the source, it never advances the cursor. -/
def Lexer.hex_loop : Nat → LexerSt → String → Res (LexerSt × String)
  | 0, _, _ => Res.out
  | fuel + 1, l, number =>
    if !(Lexer.is_end l) && Lexer.is_ascii_hexdigit l.current then
      Lexer.hex_loop fuel l (number.push l.current)
    else
      Res.ok (l, number)

/-- string_loop mirrors the string-collection `while` loop of
`Lexer::tokenize`: it runs while `!is_end && current == '"'`, handling
the escape branch and the newline branch exactly as written; note
that, like the source, the non-escape branch never advances. -/
def Lexer.string_loop : Nat → LexerSt → String → Res (LexerSt × String)
  | 0, _, _ => Res.out
  | fuel + 1, l, value =>
    if !(Lexer.is_end l) && l.current = '"' then
      if l.current = '\\' then
        match Lexer.advance l with
        | none => Res.panic l
        | some l' =>
          let ch := match l'.current with
            | '0' => '\x00'
            | '"' => '"'
            | '\\' => '\\'
            | '%' => '%'
            | 'n' => '\n'
            | 'r' => '\r'
            | 't' => '\t'
            | other => other
          Lexer.string_loop fuel l' (value.push ch)
      else
        let l' := if l.current = '\n' then { l with line := l.line + 1, col := 1 } else l
        Lexer.string_loop fuel l' (value.push l.current)
    else
      Res.ok (l, value)

/-- line_comment mirrors the one-line-comment loop
`while self.current != '\n' { self.advance(); }`. -/
def Lexer.line_comment : Nat → LexerSt → Res LexerSt
  | 0, _ => Res.out
  | fuel + 1, l =>
    if l.current ≠ '\n' then
      match Lexer.advance l with
      | none => Res.panic l
      | some l' => Lexer.line_comment fuel l'
    else
      Res.ok l

/-- skip_block_comment mirrors `Lexer::skip_block_comment` with its
nesting counter; the short-circuit `&&` of the `*/` and `/*` tests is
unfolded so that `next_char` is consulted, and can panic, exactly when
the source consults it. -/
def Lexer.skip_block_comment : Nat → Nat → LexerSt → Res LexerSt
  | 0, _, _ => Res.out
  | fuel + 1, nesting, l =>
    if nesting = 0 then Res.ok l
    else if l.current = '\n' then
      let l := { l with line := l.line + 1, col := 1 }
      match Lexer.advance l with
      | none => Res.panic l
      | some l' => Lexer.skip_block_comment fuel nesting l'
    else if Lexer.is_end l then
      Res.ok (Lexer.add_error l "an unterminated block comment")
    else if l.current = '*' then
      match Lexer.next_char l with
      | none => Res.panic l
      | some nc =>
        if nc = '/' then
          match Lexer.advance l with
          | none => Res.panic l
          | some l1 =>
            match Lexer.advance l1 with
            | none => Res.panic l1
            | some l2 =>
              match Lexer.advance l2 with
              | none => Res.panic l2
              | some l3 => Lexer.skip_block_comment fuel (nesting - 1) l3
        else
          match Lexer.advance l with
          | none => Res.panic l
          | some l' => Lexer.skip_block_comment fuel nesting l'
    else if l.current = '/' then
      match Lexer.next_char l with
      | none => Res.panic l
      | some nc =>
        if nc = '*' then
          match Lexer.advance l with
          | none => Res.panic l
          | some l1 =>
            match Lexer.advance l1 with
            | none => Res.panic l1
            | some l2 =>
              match Lexer.advance l2 with
              | none => Res.panic l2
              | some l3 => Lexer.skip_block_comment fuel (nesting + 1) l3
        else
          match Lexer.advance l with
          | none => Res.panic l
          | some l' => Lexer.skip_block_comment fuel nesting l'
    else
      match Lexer.advance l with
      | none => Res.panic l
      | some l' => Lexer.skip_block_comment fuel nesting l'

/-- number_rest mirrors the tail of the number branch of
`Lexer::tokenize`: the hex-literal check (with its lazy, panicking
`next_char`) followed by `add_token(Num, number)`. -/
def Lexer.number_rest (fuel : Nat) (l : LexerSt) (number : String) : Res LexerSt :=
  if l.current = '0' then
    match Lexer.next_char l with
    | none => Res.panic l
    | some nc =>
      if nc = 'x' then
        match Lexer.advance l with
        | none => Res.panic l
        | some l1 =>
          match Lexer.advance l1 with
          | none => Res.panic l1
          | some l2 =>
            match Lexer.hex_loop fuel l2 number with
            | Res.ok (l3, number) => Res.ok (Lexer.add_token l3 TokenType.Num number)
            | Res.panic p => Res.panic p
            | Res.out => Res.out
      else
        Res.ok (Lexer.add_token l TokenType.Num number)
  else
    Res.ok (Lexer.add_token l TokenType.Num number)

/-- fallthrough_arm mirrors the wildcard arm of the big `match` in
`Lexer::tokenize`: identifier/keyword, number (with the dead leading
`-` test, kept verbatim), string, and the silent skip for anything
else. -/
def Lexer.fallthrough_arm (fuel : Nat) (l : LexerSt) : Res LexerSt :=
  if l.current.isAlpha || l.current = '_' then
    -- identifier or keyword
    let first :=
      if (l.current.isAlpha || l.current = '_') && !(l.current.isDigit) then
        match Lexer.advance l with
        | none => Res.panic l
        | some l' => Res.ok (l', String.mk [l.current])
      else
        Res.ok (l, "")
    match first with
    | Res.panic p => Res.panic p
    | Res.out => Res.out
    | Res.ok (l', var) =>
      match Lexer.ident_loop fuel l' var with
      | Res.panic p => Res.panic p
      | Res.out => Res.out
      | Res.ok (l'', var) =>
        match Lexer.keyword var with
        | some kind => Res.ok (Lexer.add_no_value_token l'' kind)
        | none => Res.ok (Lexer.add_token l'' TokenType.Id var)
  else if l.current.isDigit || l.current = '-' then
    -- number
    let head :=
      if l.current = '-' then
        match Lexer.next_char l with
        | none => Res.panic l
        | some nc =>
          if nc.isDigit then
            match Lexer.advance l with
            | none => Res.panic l
            | some l' =>
              match Lexer.make_normal_number fuel l' (String.mk ['-']) Bool.false with
              | Res.ok (l'', number) => Res.ok (l'', number)
              | Res.panic p => Res.panic p
              | Res.out => Res.out
          else
            Res.ok (l, "")
      else if l.current.isDigit then
        match Lexer.make_normal_number fuel l "" Bool.false with
        | Res.ok (l', number) => Res.ok (l', number)
        | Res.panic p => Res.panic p
        | Res.out => Res.out
      else
        Res.ok (l, "")
    match head with
    | Res.panic p => Res.panic p
    | Res.out => Res.out
    | Res.ok (l', number) => Lexer.number_rest fuel l' number
  else if l.current = '"' then
    -- string
    match Lexer.string_loop fuel l "" with
    | Res.panic p => Res.panic p
    | Res.out => Res.out
    | Res.ok (l', value) => Res.ok (Lexer.add_token l' TokenType.Str value)
  else
    Res.ok l

/-- step_match mirrors the big `match self.current` of
`Lexer::tokenize`, one arm per character, after the loop-top advance
has already run. -/
def Lexer.step_match (fuel : Nat) (l : LexerSt) : Res LexerSt :=
  match l.current with
  | '\n' => Res.ok { l with line := l.line + 1, col := 1 }
  | '(' => Res.ok (Lexer.add_no_value_token l .LParen)
  | ')' => Res.ok (Lexer.add_no_value_token l .RParen)
  | '{' => Res.ok (Lexer.add_no_value_token l .LBrace)
  | '}' => Res.ok (Lexer.add_no_value_token l .RBrace)
  | '[' => Res.ok (Lexer.add_no_value_token l .LBracket)
  | ']' => Res.ok (Lexer.add_no_value_token l .RBracket)
  | ':' => Res.ok (Lexer.add_no_value_token l .Colon)
  | ';' => Res.ok (Lexer.add_no_value_token l .SColon)
  | '@' => Res.ok (Lexer.add_no_value_token l .At)
  | '^' => Res.ok (Lexer.add_no_value_token l .Caret)
  | ',' => Res.ok (Lexer.add_no_value_token l .Comma)
  | '.' => Res.ok (Lexer.add_no_value_token l .Dot)
  | '+' =>
    match Lexer.next_char l with
    | none => Res.panic l
    | some '+' => Lexer.two_char l .DPlus
    | some '=' => Lexer.two_char l .PlusEq
    | some _ => Res.ok (Lexer.add_no_value_token l .Plus)
  | '-' =>
    match Lexer.next_char l with
    | none => Res.panic l
    | some '-' => Lexer.two_char l .DMinus
    | some '=' => Lexer.two_char l .MinusEq
    | some _ => Res.ok (Lexer.add_no_value_token l .Minus)
  | '*' =>
    match Lexer.next_char l with
    | none => Res.panic l
    | some '=' => Lexer.two_char l .MulEq
    | some _ => Res.ok (Lexer.add_no_value_token l .Mul)
  | '/' =>
    match Lexer.next_char l with
    | none => Res.panic l
    | some '/' => Lexer.line_comment fuel l
    | some '*' => Lexer.skip_block_comment fuel 1 l
    | some '=' => Lexer.two_char l .DivEq
    | some _ => Res.ok (Lexer.add_no_value_token l .Div)
  | '%' =>
    match Lexer.next_char l with
    | none => Res.panic l
    | some '=' => Lexer.two_char l .ModEq
    | some _ => Res.ok (Lexer.add_no_value_token l .Mod)
  | '|' =>
    match Lexer.next_char l with
    | none => Res.panic l
    | some '>' => Lexer.two_char l .RPipe
    | some '|' => Lexer.two_char l .DPipe
    | some _ =>
      match Lexer.advance l with
      | none => Res.panic l
      | some l' => Res.ok (Lexer.add_error l' "unrecognized character")
  | '<' =>
    match Lexer.next_char l with
    | none => Res.panic l
    | some '|' => Lexer.two_char l .LPipe
    | some '=' => Lexer.two_char l .LTEq
    | some _ => Res.ok (Lexer.add_no_value_token l .LT)
  | '>' =>
    match Lexer.next_char l with
    | none => Res.panic l
    | some '=' => Lexer.two_char l .GTEq
    | some _ => Res.ok (Lexer.add_no_value_token l .GT)
  | '!' =>
    match Lexer.next_char l with
    | none => Res.panic l
    | some '=' => Lexer.two_char l .BangEq
    | some _ => Res.ok (Lexer.add_no_value_token l .Bang)
  | '=' =>
    match Lexer.next_char l with
    | none => Res.panic l
    | some '=' => Lexer.two_char l .DEq
    | some _ => Res.ok (Lexer.add_no_value_token l .Equal)
  | '&' =>
    match Lexer.next_char l with
    | none => Res.panic l
    | some '&' => Lexer.two_char l .DAmp
    | some _ =>
      match Lexer.advance l with
      | none => Res.panic l
      | some l' => Res.ok (Lexer.add_error l' "unrecognized character")
  | _ => Lexer.fallthrough_arm fuel l

/-- step is one iteration of the main `while !self.is_end()` loop of
`Lexer::tokenize`: the conditional loop-top advance (skipped when
`c == 0`) followed by the character dispatch. -/
def Lexer.step (fuel : Nat) (l : LexerSt) : Res LexerSt :=
  if l.c ≠ 0 then
    match Lexer.advance l with
    | none => Res.panic l
    | some l' => Lexer.step_match fuel l'
  else
    Lexer.step_match fuel l

/-- tokenize_loop is the main `while !self.is_end()` loop of
`Lexer::tokenize`, driven by fuel. -/
def Lexer.tokenize_loop : Nat → LexerSt → Res LexerSt
  | 0, _ => Res.out
  | fuel + 1, l =>
    if Lexer.is_end l then Res.ok l
    else
      match Lexer.step fuel l with
      | Res.ok l' => Lexer.tokenize_loop fuel l'
      | Res.panic p => Res.panic p
      | Res.out => Res.out

/-- tokenize mirrors `Lexer::tokenize` run on a fresh `Lexer::new`
state: the initial `current = chars().nth(0).unwrap()` (a panic on the
empty source) followed by the main loop. -/
def Lexer.tokenize (fuel : Nat) (source : List Char) : Res LexerSt :=
  let l := Lexer.new source
  match l.source.get? 0 with
  | none => Res.panic l
  | some ch => Lexer.tokenize_loop fuel { l with current := ch }

/-- TypeInfo mirrors the `TypeInfo` enum of `ast.rs`. -/
inductive TypeInfo where
  | Str | Num | Bool | Any | Map | List
  | Id (t : Token)
deriving DecidableEq, Repr

mutual
/-- Expr mirrors the `Expr` enum of `ast.rs` (Rust field names kept;
`variable_`, `instance_` and friends carry a trailing underscore only
where the Rust name is a Lean keyword). -/
inductive Expr where
  | binary (left : Expr) (right : Expr) (op : Token)
  | group (expr : Expr)
  | unary (right : Expr) (op : Token)
  | literal (kind : TokenType) (value : String)
  | logical (left : Expr) (right : Expr) (op : Token)
  | variable_ (name : Token)
  | assign (name : Token) (value : Expr)
  | call (callee : Expr) (args : List Expr) (token : Token)
  | get (instance_ : Expr) (token : Token)
  | set (instance_ : Expr) (token : Token) (value : Expr)
  | access (token : Token) (expr : Expr) (index : Expr)
  | func (params : List Token) (body : List Node)
  | unknown
/-- Stmt mirrors the `Stmt` enum of `ast.rs`. -/
inductive Stmt where
  | expr (expr : Expr)
  | variable_ (name : Token) (init : Expr)
  | if_ (condition : Expr) (then_ : Node) (els : Option Node)
  | block (statements : List Node)
  | while_ (condition : Expr) (body : Node) (token : Token)
  | func (token : Token) (fn : Expr)
  | return_ (token : Token) (values : List Expr)
  | break_
  | continue_
  | import_ (name : Expr) (token : Token)
  | struct_ (token : Token) (fields : List Token) (types : List TypeInfo)
/-- Node mirrors the `Node` enum of `ast.rs`. -/
inductive Node where
  | EXPR (e : Expr)
  | STMT (s : Stmt)
end

/-- reprName is the Rust `derive(Debug)` name of a token kind, as
produced by the `format!("\x7b:?\x7d", kind)` calls of `ast.rs`. -/
def TokenType.reprName : TokenType → String
  | .LParen => "LParen" | .RParen => "RParen" | .LBrace => "LBrace"
  | .RBrace => "RBrace" | .LBracket => "LBracket" | .RBracket => "RBracket"
  | .Colon => "Colon" | .SColon => "SColon" | .At => "At" | .Caret => "Caret"
  | .Comma => "Comma" | .Dot => "Dot"
  | .Plus => "Plus" | .DPlus => "DPlus" | .PlusEq => "PlusEq"
  | .Minus => "Minus" | .DMinus => "DMinus" | .MinusEq => "MinusEq"
  | .Mul => "Mul" | .MulEq => "MulEq" | .Div => "Div" | .DivEq => "DivEq"
  | .Mod => "Mod" | .ModEq => "ModEq"
  | .RPipe => "RPipe" | .DPipe => "DPipe" | .LPipe => "LPipe"
  | .LT => "LT" | .LTEq => "LTEq" | .GT => "GT" | .GTEq => "GTEq"
  | .Bang => "Bang" | .BangEq => "BangEq" | .Equal => "Equal" | .DEq => "DEq"
  | .DAmp => "DAmp" | .And => "And" | .Or => "Or"
  | .Func => "Func" | .Class => "Class" | .Static => "Static" | .Var => "Var"
  | .Const => "Const" | .If => "If" | .Else => "Else" | .For => "For"
  | .While => "While" | .Super => "Super" | .This => "This"
  | .Return => "Return" | .Continue => "Continue" | .Break => "Break"
  | .True => "True" | .False => "False" | .Null => "Null" | .Import => "Import"
  | .Struct => "Struct"
  | .Num => "Num" | .Str => "Str" | .Id => "Id" | .Atom => "Atom"
  | .Underscore => "Underscore" | .EOF => "EOF"

/-- Modelled from the spec: `Token::print` lives in the out-of-scope
`token.rs`; spec section 4.3 fixes it as "its literal text if it
carries one (identifier/literal), else the symbolic name of its kind
(e.g. an addition operator renders as `Plus`)". -/
def Token.print (t : Token) : String :=
  if t.value = "" then TokenType.reprName t.kind else t.value

/-- TypeInfo.print mirrors `TypeInfo::print` of `ast.rs`. -/
def TypeInfo.print : TypeInfo → String
  | .Str => "string"
  | .Num => "number"
  | .Bool => "bool"
  | .Any => "any"
  | .Map => "map"
  | .List => "list"
  | .Id t => Token.print t

mutual
/-- Expr.print mirrors `Expr::print` of `ast.rs`, fuel-driven; `none`
is the `panic!` of the malformed-Literal arm (or fuel exhaustion). -/
def Expr.print : Nat → Expr → Option String
  | 0, _ => none
  | fuel + 1, e =>
    match e with
    | .binary left right op =>
      match Expr.print fuel left, Expr.print fuel right with
      | some ls, some rs => some ("(" ++ Token.print op ++ " " ++ ls ++ " " ++ rs ++ ")")
      | _, _ => none
    | .group inner =>
      match Expr.print fuel inner with
      | some s => some ("(" ++ s ++ ")")
      | none => none
    | .unary right op =>
      match Expr.print fuel right with
      | some rs => some ("(" ++ Token.print op ++ " " ++ rs ++ ")")
      | none => none
    | .literal kind value =>
      match kind with
      | .Str => some ("\"" ++ value ++ "\"")
      | .Atom => some (":" ++ value)
      | .Underscore => some ":_:"
      | .Num => some (TokenType.reprName kind)
      | .False => some (TokenType.reprName kind)
      | .True => some (TokenType.reprName kind)
      | .Null => some (TokenType.reprName kind)
      | _ => none
    | .logical left right op =>
      match Expr.print fuel left, Expr.print fuel right with
      | some ls, some rs => some ("(" ++ Token.print op ++ " " ++ ls ++ " " ++ rs ++ ")")
      | _, _ => none
    | .variable_ name => some (Token.print name)
    | .assign name value =>
      match Expr.print fuel value with
      | some vs => some ("(assign " ++ Token.print name ++ " " ++ vs ++ ")")
      | none => none
    | .call callee args _ =>
      match Expr.print fuel callee, Expr.print_list fuel args with
      | some cs, some as_ =>
        if args.length > 0 then
          some ("(" ++ cs ++ " " ++ String.intercalate " " as_ ++ ")")
        else
          some ("(" ++ cs ++ ")")
      | _, _ => none
    | .get instance_ token =>
      match Expr.print fuel instance_ with
      | some is_ => some (is_ ++ "." ++ Token.print token)
      | none => none
    | .set instance_ token value =>
      match Expr.print fuel instance_, Expr.print fuel value with
      | some is_, some vs =>
        some ("(set " ++ is_ ++ "." ++ Token.print token ++ " " ++ vs ++ ")")
      | _, _ => none
    | .access _ inner index =>
      match Expr.print fuel inner, Expr.print fuel index with
      | some es, some ix => some ("(.access " ++ es ++ " " ++ ix ++ ")")
      | _, _ => none
    | .func params body =>
      match Node.print_list fuel body with
      | some bs =>
        some ("(lambda (" ++ String.intercalate " " (params.map Token.print) ++ ") "
          ++ String.intercalate " " bs ++ ")")
      | none => none
    | .unknown => some "unknown"

/-- print_list maps `Expr.print` over an argument vector, as the
`bulk_print!` macro of `debug.rs` does. -/
def Expr.print_list : Nat → List Expr → Option (List String)
  | 0, _ => none
  | _, [] => some []
  | fuel + 1, e :: rest =>
    match Expr.print fuel e, Expr.print_list fuel rest with
    | some s, some ss => some (s :: ss)
    | _, _ => none

/-- Stmt.print mirrors `Stmt::print` of `ast.rs`. -/
def Stmt.print : Nat → Stmt → Option String
  | 0, _ => none
  | fuel + 1, s =>
    match s with
    | .expr e => Expr.print fuel e
    | .variable_ name init =>
      match Expr.print fuel init with
      | some is_ => some ("(var " ++ Token.print name ++ " " ++ is_ ++ ")")
      | none => none
    | .if_ condition then_ els =>
      match Expr.print fuel condition, Node.print fuel then_ with
      | some cs, some ts =>
        match els with
        | some e =>
          match Node.print fuel e with
          | some es => some ("(if (" ++ cs ++ ") " ++ ts ++ es ++ ")")
          | none => none
        | none => some ("(if (" ++ cs ++ ") " ++ ts ++ ")")
      | _, _ => none
    | .block statements =>
      match Node.print_list fuel statements with
      | some ss =>
        let stmts := String.intercalate " " ss
        some ("(block" ++ (if stmts = "" then "" else " " ++ stmts) ++ ")")
      | none => none
    | .while_ condition body _ =>
      match Expr.print fuel condition, Node.print fuel body with
      | some cs, some bs => some ("(while (" ++ cs ++ ") " ++ bs ++ ")")
      | _, _ => none
    | .func token fn =>
      match Expr.print fuel fn with
      | some fs => some ("(func " ++ Token.print token ++ " " ++ fs ++ ")")
      | none => none
    | .return_ _ values =>
      match Expr.print_list fuel values with
      | some vs => some ("(return " ++ String.intercalate " " vs ++ ")")
      | none => none
    | .break_ => some "(break)"
    | .continue_ => some "(continue)"
    | .import_ name _ =>
      match Expr.print fuel name with
      | some ns => some ("(import " ++ ns ++ ")")
      | none => none
    | .struct_ token fields types =>
      let pairs := (fields.zip types).map
        (fun kv => Token.print kv.1 ++ ":" ++ TypeInfo.print kv.2)
      some ("(struct " ++ Token.print token
        ++ (if pairs.length > 0 then " " ++ String.intercalate " " pairs else "") ++ ")")

/-- Node.print mirrors `Node::print` of `ast.rs`. -/
def Node.print : Nat → Node → Option String
  | 0, _ => none
  | fuel + 1, n =>
    match n with
    | .EXPR e => Expr.print fuel e
    | .STMT s => Stmt.print fuel s

/-- print_list maps `Node.print` over a node vector, as the
`bulk_print!` macro of `debug.rs` does. -/
def Node.print_list : Nat → List Node → Option (List String)
  | 0, _ => none
  | _, [] => some []
  | fuel + 1, n :: rest =>
    match Node.print fuel n, Node.print_list fuel rest with
    | some s, some ss => some (s :: ss)
    | _, _ => none
end

/-- pretty_print mirrors `Node::pretty_print` of `ast.rs`: every node
printed, joined by newlines. -/
def Node.pretty_print (fuel : Nat) (nodes : List Node) : Option String :=
  match Node.print_list fuel nodes with
  | some ss => some (String.intercalate "\n" ss)
  | none => none

/-- ParserSt is the `Parser` struct of `parser.rs`: cursor, cached
current token, diagnostics and the statements accumulated by `parse`. -/
structure ParserSt where
  c : Nat
  current : Token
  errors : List ParserError
  statements : List Node

/-- PRes is the outcome of a fuel-driven parser computation: a normal
result with the updated parser state, a Rust panic (out-of-bounds
`Vec` indexing), or fuel exhaustion. -/
inductive PRes (α : Type) where
  | ok : α → ParserSt → PRes α
  | panic : PRes α
  | out : PRes α

/-- bind sequences a parser computation, propagating panic and fuel
exhaustion. -/
def PRes.bind {α β : Type} : PRes α → (α → ParserSt → PRes β) → PRes β
  | PRes.ok a p, k => k a p
  | PRes.panic, _ => PRes.panic
  | PRes.out, _ => PRes.out

/-- liftP turns the `none` of a panicking helper into `PRes.panic`. -/
def liftP {α β : Type} : Option α → (α → PRes β) → PRes β
  | none, _ => PRes.panic
  | some a, k => k a

/-- Parser.is_end mirrors `Parser::is_end`; `none` is the panic of the
`tokens[self.c]` indexing. -/
def Parser.is_end (tokens : List Token) (p : ParserSt) : Option Bool :=
  (tokens.get? p.c).map (fun t => t.kind == TokenType.EOF)

/-- Parser.check_current mirrors `Parser::check_current`; `none` is
the panic of the `tokens[self.c]` indexing. -/
def Parser.check_current (kind : TokenType) (tokens : List Token) (p : ParserSt) : Option Bool :=
  (tokens.get? p.c).map (fun t => t.kind == kind)

/-- Parser.check_next mirrors `Parser::check_next`: after the `is_end`
guard it inspects `tokens[self.c]` — the token at the current cursor,
not the following one. -/
def Parser.check_next (kind : TokenType) (tokens : List Token) (p : ParserSt) : Option Bool :=
  match Parser.is_end tokens p with
  | none => none
  | some Bool.true => some Bool.false
  | some Bool.false => (tokens.get? p.c).map (fun t => t.kind == kind)

/-- Parser.advance mirrors `Parser::advance`; in the `is_end` branch
the source executes `tokens[tokens.len()].clone()`, an indexing that
is out of bounds for every vector, so the `map` is over `none`. -/
def Parser.advance (tokens : List Token) (p : ParserSt) : Option ParserSt :=
  match Parser.is_end tokens p with
  | none => none
  | some Bool.false =>
    (tokens.get? (p.c + 1)).map (fun t => { p with c := p.c + 1, current := t })
  | some Bool.true =>
    (tokens.get? tokens.length).map (fun t => { p with current := t })

/-- Parser.previous mirrors `Parser::previous`. -/
def Parser.previous (tokens : List Token) (p : ParserSt) : Option Token :=
  if p.c = 0 then tokens.get? 0 else tokens.get? (p.c - 1)

/-- Parser.add_error mirrors `Parser::add_error`. -/
def Parser.add_error (msg : String) (p : ParserSt) : ParserSt :=
  { p with errors := p.errors ++ [⟨msg, p.current.line, p.current.col⟩] }

/-- Parser.does_match mirrors `Parser::does_match`: the first kind the
current token matches is consumed. -/
def Parser.does_match : List TokenType → List Token → ParserSt → Option (Bool × ParserSt)
  | [], _, p => some (Bool.false, p)
  | kind :: rest, tokens, p =>
    match Parser.check_current kind tokens p with
    | none => none
    | some Bool.true => (Parser.advance tokens p).map (fun p' => (Bool.true, p'))
    | some Bool.false => Parser.does_match rest tokens p

/-- Parser.expect mirrors `Parser::expect`: consume the expected kind,
or record a diagnostic without consuming anything. -/
def Parser.expect (kind : TokenType) (msg : String) (tokens : List Token) (p : ParserSt) :
    Option ParserSt :=
  match Parser.check_current kind tokens p with
  | none => none
  | some Bool.true => Parser.advance tokens p
  | some Bool.false => some (Parser.add_error msg p)

/-- Modelled from the spec: the "unexpected token" diagnostic of
`Parser::primary` interpolates the Rust `Debug` form of the current
token, which lives in the out-of-scope `token.rs`; no claim depends on
the rendering, which is abbreviated here to kind and text. -/
def Token.debug_fmt (t : Token) : String :=
  TokenType.reprName t.kind ++ " " ++ t.value

/-- PCall names one method of the Rust `Parser` impl (or one of its
internal `while`/`loop` bodies), together with the extra arguments that
method threads through the loop; it defunctionalizes the mutual
recursion of `parser.rs` into the single fuel-driven `Parser.run`. -/
inductive PCall where
  | expression
  | assignment
  | or_expr
  | or_loop (expr : Expr)
  | and_expr
  | and_loop (expr : Expr)
  | equality
  | equality_loop (expr : Expr)
  | comparison
  | comparison_loop (expr : Expr)
  | term
  | term_loop (expr : Expr)
  | factor
  | factor_loop (expr : Expr)
  | unary
  | call (arg : Option Expr)
  | call_loop (expr : Expr) (arg : Option Expr)
  | finish_call (callee : Expr) (arg : Option Expr)
  | finish_args (args : List Expr)
  | primary
  | declaration
  | statement
  | expr_stmt
  | continue_stmt
  | import_stmt
  | if_stmt
  | break_stmt
  | return_stmt
  | return_values (values : List Expr)
  | while_stmt
  | for_stmt
  | function (kind : String)
  | function_body (kind : String)
  | parse_params (kind : String)
  | params_loop (params : List Token)
  | parse_block
  | block_loop (stmts : List Node)
  | var_declaration
  | struct_declaration
  | struct_loop (fields : List Token) (types : List TypeInfo)
  | parse_loop

/-- POut is the (sum of the) return types of the Rust parser methods. -/
inductive POut where
  | expr (e : Expr)
  | node (n : Node)
  | exprs (es : List Expr)
  | toks (ts : List Token)
  | nodes (ns : List Node)
  | ft (fields : List Token) (types : List TypeInfo)
  | unit

/-- asE projects the result of a call that returns an `Expr`. -/
def PRes.asE : PRes POut → PRes Expr
  | PRes.ok (POut.expr e) p => PRes.ok e p
  | PRes.ok _ _ => PRes.panic
  | PRes.panic => PRes.panic
  | PRes.out => PRes.out

/-- asN projects the result of a call that returns a `Node`. -/
def PRes.asN : PRes POut → PRes Node
  | PRes.ok (POut.node n) p => PRes.ok n p
  | PRes.ok _ _ => PRes.panic
  | PRes.panic => PRes.panic
  | PRes.out => PRes.out

/-- asEs projects the result of a call that returns a `Vec<Expr>`. -/
def PRes.asEs : PRes POut → PRes (List Expr)
  | PRes.ok (POut.exprs es) p => PRes.ok es p
  | PRes.ok _ _ => PRes.panic
  | PRes.panic => PRes.panic
  | PRes.out => PRes.out

/-- asTs projects the result of a call that returns a `Vec<Token>`. -/
def PRes.asTs : PRes POut → PRes (List Token)
  | PRes.ok (POut.toks ts) p => PRes.ok ts p
  | PRes.ok _ _ => PRes.panic
  | PRes.panic => PRes.panic
  | PRes.out => PRes.out

/-- asNs projects the result of a call that returns a `Vec<Node>`. -/
def PRes.asNs : PRes POut → PRes (List Node)
  | PRes.ok (POut.nodes ns) p => PRes.ok ns p
  | PRes.ok _ _ => PRes.panic
  | PRes.panic => PRes.panic
  | PRes.out => PRes.out

/-- asFT projects the result of the struct-field loop. -/
def PRes.asFT : PRes POut → PRes (List Token × List TypeInfo)
  | PRes.ok (POut.ft fs ts) p => PRes.ok (fs, ts) p
  | PRes.ok _ _ => PRes.panic
  | PRes.panic => PRes.panic
  | PRes.out => PRes.out

/-- asU projects the result of a call that returns `()`. -/
def PRes.asU : PRes POut → PRes Unit
  | PRes.ok POut.unit p => PRes.ok () p
  | PRes.ok _ _ => PRes.panic
  | PRes.panic => PRes.panic
  | PRes.out => PRes.out

/-- outE injects an `Expr` result into `POut`. -/
def PRes.outE : PRes Expr → PRes POut
  | PRes.ok e p => PRes.ok (POut.expr e) p
  | PRes.panic => PRes.panic
  | PRes.out => PRes.out

/-- outN injects a `Node` result into `POut`. -/
def PRes.outN : PRes Node → PRes POut
  | PRes.ok n p => PRes.ok (POut.node n) p
  | PRes.panic => PRes.panic
  | PRes.out => PRes.out

/-- outEs injects a `Vec<Expr>` result into `POut`. -/
def PRes.outEs : PRes (List Expr) → PRes POut
  | PRes.ok es p => PRes.ok (POut.exprs es) p
  | PRes.panic => PRes.panic
  | PRes.out => PRes.out

/-- outTs injects a `Vec<Token>` result into `POut`. -/
def PRes.outTs : PRes (List Token) → PRes POut
  | PRes.ok ts p => PRes.ok (POut.toks ts) p
  | PRes.panic => PRes.panic
  | PRes.out => PRes.out

/-- outNs injects a `Vec<Node>` result into `POut`. -/
def PRes.outNs : PRes (List Node) → PRes POut
  | PRes.ok ns p => PRes.ok (POut.nodes ns) p
  | PRes.panic => PRes.panic
  | PRes.out => PRes.out

/-- outFT injects the struct-field loop result into `POut`. -/
def PRes.outFT : PRes (List Token × List TypeInfo) → PRes POut
  | PRes.ok ft p => PRes.ok (POut.ft ft.1 ft.2) p
  | PRes.panic => PRes.panic
  | PRes.out => PRes.out

/-- outU injects a `()` result into `POut`. -/
def PRes.outU : PRes Unit → PRes POut
  | PRes.ok _ p => PRes.ok POut.unit p
  | PRes.panic => PRes.panic
  | PRes.out => PRes.out

/-- run is the whole recursive-descent parser of `parser.rs`, one
`PCall` arm per Rust method, each arm the one-to-one translation of
that method's body; every recursive call steps through `Parser.run`
with one unit of fuel. -/
def Parser.run : Nat → PCall → List Token → ParserSt → PRes POut
  | 0, _, _, _ => PRes.out
  | fuel + 1, c, tokens, p =>
    match c with
    | PCall.expression =>
      -- Parser::expression
      Parser.run fuel PCall.assignment tokens p
    | PCall.assignment =>
      -- Parser::assignment, including the fall-through `return expr`
      -- after an invalid-target diagnostic
      PRes.outE (
      ((Parser.run fuel PCall.or_expr tokens p).asE).bind fun expr p =>
      liftP (Parser.check_current .Equal tokens p) fun b =>
      if b then
        let eq := p.current
        liftP (Parser.advance tokens p) fun p =>
        ((Parser.run fuel PCall.assignment tokens p).asE).bind fun value p =>
        match expr with
        | .variable_ name => PRes.ok (.assign name value) p
        | .get instance_ token => PRes.ok (.set instance_ token value) p
        | _ =>
          PRes.ok expr
            { p with errors := p.errors ++ [⟨"invalid assignment target", eq.line, eq.col⟩] }
      else
        liftP (Parser.does_match [.PlusEq, .MinusEq, .MulEq, .DivEq, .ModEq] tokens p) fun mp =>
        if mp.1 then
          let p := mp.2
          liftP (Parser.previous tokens p) fun op =>
          ((Parser.run fuel PCall.assignment tokens p).asE).bind fun value p =>
          match expr with
          | .variable_ name => PRes.ok (.assign name (.binary expr value op)) p
          | _ => PRes.ok expr (Parser.add_error "expected a variable" p)
        else
          let p := mp.2
          liftP (Parser.does_match [.DPlus, .DMinus] tokens p) fun mp2 =>
          if mp2.1 then
            let p := mp2.2
            liftP (Parser.previous tokens p) fun op =>
            match expr with
            | .variable_ name =>
              PRes.ok (.assign name (.binary expr (.literal .Num "1") op)) p
            | _ => PRes.ok expr (Parser.add_error "expected a variable" p)
          else
            PRes.ok expr mp2.2)
    | PCall.or_expr =>
      -- Parser::or_expr
      PRes.outE (
      ((Parser.run fuel PCall.and_expr tokens p).asE).bind fun e p =>
      (Parser.run fuel (PCall.or_loop e) tokens p).asE)
    | PCall.or_loop expr =>
      -- while loop of Parser::or_expr
      PRes.outE (
      liftP (Parser.does_match [.DPipe, .Or] tokens p) fun mp =>
      if mp.1 then
        let p := mp.2
        liftP (Parser.previous tokens p) fun op =>
        ((Parser.run fuel PCall.and_expr tokens p).asE).bind fun r p =>
        (Parser.run fuel (PCall.or_loop (.logical expr r op)) tokens p).asE
      else
        PRes.ok expr mp.2)
    | PCall.and_expr =>
      -- Parser::and_expr
      PRes.outE (
      ((Parser.run fuel PCall.equality tokens p).asE).bind fun e p =>
      (Parser.run fuel (PCall.and_loop e) tokens p).asE)
    | PCall.and_loop expr =>
      -- while loop of Parser::and_expr
      PRes.outE (
      liftP (Parser.does_match [.DAmp, .And] tokens p) fun mp =>
      if mp.1 then
        let p := mp.2
        liftP (Parser.previous tokens p) fun op =>
        ((Parser.run fuel PCall.equality tokens p).asE).bind fun r p =>
        (Parser.run fuel (PCall.and_loop (.logical expr r op)) tokens p).asE
      else
        PRes.ok expr mp.2)
    | PCall.equality =>
      -- Parser::equality
      PRes.outE (
      ((Parser.run fuel PCall.comparison tokens p).asE).bind fun e p =>
      (Parser.run fuel (PCall.equality_loop e) tokens p).asE)
    | PCall.equality_loop expr =>
      -- while loop of Parser::equality
      PRes.outE (
      liftP (Parser.does_match [.BangEq, .DEq] tokens p) fun mp =>
      if mp.1 then
        let p := mp.2
        liftP (Parser.previous tokens p) fun op =>
        ((Parser.run fuel PCall.comparison tokens p).asE).bind fun r p =>
        (Parser.run fuel (PCall.equality_loop (.binary expr r op)) tokens p).asE
      else
        PRes.ok expr mp.2)
    | PCall.comparison =>
      -- Parser::comparison
      PRes.outE (
      ((Parser.run fuel PCall.term tokens p).asE).bind fun e p =>
      (Parser.run fuel (PCall.comparison_loop e) tokens p).asE)
    | PCall.comparison_loop expr =>
      -- while loop of Parser::comparison
      PRes.outE (
      liftP (Parser.does_match [.GT, .GTEq, .LT, .LTEq] tokens p) fun mp =>
      if mp.1 then
        let p := mp.2
        liftP (Parser.previous tokens p) fun op =>
        ((Parser.run fuel PCall.term tokens p).asE).bind fun r p =>
        (Parser.run fuel (PCall.comparison_loop (.binary expr r op)) tokens p).asE
      else
        PRes.ok expr mp.2)
    | PCall.term =>
      -- Parser::term
      PRes.outE (
      ((Parser.run fuel PCall.factor tokens p).asE).bind fun e p =>
      (Parser.run fuel (PCall.term_loop e) tokens p).asE)
    | PCall.term_loop expr =>
      -- while loop of Parser::term
      PRes.outE (
      liftP (Parser.does_match [.Minus, .Plus] tokens p) fun mp =>
      if mp.1 then
        let p := mp.2
        liftP (Parser.previous tokens p) fun op =>
        ((Parser.run fuel PCall.factor tokens p).asE).bind fun r p =>
        (Parser.run fuel (PCall.term_loop (.binary expr r op)) tokens p).asE
      else
        PRes.ok expr mp.2)
    | PCall.factor =>
      -- Parser::factor
      PRes.outE (
      ((Parser.run fuel PCall.unary tokens p).asE).bind fun e p =>
      (Parser.run fuel (PCall.factor_loop e) tokens p).asE)
    | PCall.factor_loop expr =>
      -- while loop of Parser::factor
      PRes.outE (
      liftP (Parser.does_match [.Div, .Mul, .Mod] tokens p) fun mp =>
      if mp.1 then
        let p := mp.2
        liftP (Parser.previous tokens p) fun op =>
        ((Parser.run fuel PCall.unary tokens p).asE).bind fun r p =>
        (Parser.run fuel (PCall.factor_loop (.binary expr r op)) tokens p).asE
      else
        PRes.ok expr mp.2)
    | PCall.unary =>
      -- Parser::unary
      PRes.outE (
      liftP (Parser.does_match [.Bang, .Minus] tokens p) fun mp =>
      if mp.1 then
        let p := mp.2
        liftP (Parser.previous tokens p) fun op =>
        ((Parser.run fuel PCall.unary tokens p).asE).bind fun r p =>
        PRes.ok (.unary r op) p
      else
        (Parser.run fuel (PCall.call none) tokens mp.2).asE)
    | PCall.call arg =>
      -- Parser::call (`arg` is the piped-in expression of a pending `|>`)
      PRes.outE (
      ((Parser.run fuel PCall.primary tokens p).asE).bind fun e p =>
      (Parser.run fuel (PCall.call_loop e arg) tokens p).asE)
    | PCall.call_loop expr arg =>
      -- the postfix loop of Parser::call: calls, member access, the
      -- forward pipe (which ends the loop, as the source breaks) and
      -- the __getitem__ desugaring of indexing
      PRes.outE (
      liftP (Parser.does_match [.LParen] tokens p) fun mp =>
      if mp.1 then
        ((Parser.run fuel (PCall.finish_call expr arg) tokens mp.2).asE).bind fun e p =>
        (Parser.run fuel (PCall.call_loop e arg) tokens p).asE
      else
      liftP (Parser.does_match [.Dot] tokens mp.2) fun mp2 =>
      if mp2.1 then
        let p := mp2.2
        liftP (Parser.expect .Id "expected an identifier" tokens p) fun p =>
        liftP (Parser.previous tokens p) fun name =>
        (Parser.run fuel (PCall.call_loop (.get expr name) arg) tokens p).asE
      else
      liftP (Parser.does_match [.RPipe] tokens mp2.2) fun mp3 =>
      if mp3.1 then
        (Parser.run fuel (PCall.call (some expr)) tokens mp3.2).asE
      else
      liftP (Parser.does_match [.LBracket] tokens mp3.2) fun mp4 =>
      if mp4.1 then
        let p := mp4.2
        liftP (Parser.previous tokens p) fun token =>
        ((Parser.run fuel PCall.expression tokens p).asE).bind fun key p =>
        liftP (Parser.expect .RBracket "expected \x27]\x27" tokens p) fun p =>
        let token := { token with value := "__getitem__", kind := .Id }
        (Parser.run fuel (PCall.call_loop (.call (.get expr token) [key] token) arg) tokens p).asE
      else
        PRes.ok expr mp4.2)
    | PCall.finish_call callee arg =>
      -- Parser::finish_call: a pending |> argument goes first, then the
      -- comma-separated arguments, then a <| argument is appended last
      PRes.outE (
      let args : List Expr := match arg with
        | some a => [a]
        | none => []
      liftP (Parser.check_current .RParen tokens p) fun b =>
      (if !b then
        ((Parser.run fuel PCall.expression tokens p).asE).bind fun e p =>
        (Parser.run fuel (PCall.finish_args (args ++ [e])) tokens p).asEs
      else
        PRes.ok args p).bind fun args p =>
      liftP (Parser.expect .RParen "expected \x27)\x27" tokens p) fun p =>
      liftP (Parser.previous tokens p) fun token =>
      liftP (Parser.does_match [.LPipe] tokens p) fun mp =>
      if mp.1 then
        ((Parser.run fuel PCall.expression tokens mp.2).asE).bind fun e p =>
        PRes.ok (.call callee (args ++ [e]) token) p
      else
        PRes.ok (.call callee args token) mp.2)
    | PCall.finish_args args =>
      -- comma while loop of Parser::finish_call
      PRes.outEs (
      liftP (Parser.does_match [.Comma] tokens p) fun mp =>
      if mp.1 then
        ((Parser.run fuel PCall.expression tokens mp.2).asE).bind fun e p =>
        (Parser.run fuel (PCall.finish_args (args ++ [e])) tokens p).asEs
      else
        PRes.ok args mp.2)
    | PCall.primary =>
      -- Parser::primary: literals, identifiers, groups, the Unknown
      -- list/map gaps, anonymous functions, and the unexpected-token
      -- recovery that records a diagnostic and advances one token
      PRes.outE (
      liftP (Parser.does_match [.True, .False, .Null] tokens p) fun mp =>
      if mp.1 then
        liftP (Parser.previous tokens mp.2) fun token =>
        PRes.ok (.literal token.kind token.value) mp.2
      else
      liftP (Parser.does_match [.Num, .Str] tokens mp.2) fun mp2 =>
      if mp2.1 then
        liftP (Parser.previous tokens mp2.2) fun token =>
        PRes.ok (.literal token.kind token.value) mp2.2
      else
      liftP (Parser.does_match [.Id] tokens mp2.2) fun mp3 =>
      if mp3.1 then
        liftP (Parser.previous tokens mp3.2) fun token =>
        PRes.ok (.variable_ token) mp3.2
      else
      liftP (Parser.does_match [.LParen] tokens mp3.2) fun mp4 =>
      if mp4.1 then
        ((Parser.run fuel PCall.expression tokens mp4.2).asE).bind fun e p =>
        liftP (Parser.expect .RParen "expected \x27)\x27" tokens p) fun p =>
        PRes.ok (.group e) p
      else
      liftP (Parser.does_match [.LBracket] tokens mp4.2) fun mp5 =>
      if mp5.1 then
        PRes.ok .unknown mp5.2
      else
      liftP (Parser.does_match [.LBrace] tokens mp5.2) fun mp6 =>
      if mp6.1 then
        PRes.ok .unknown mp6.2
      else
      liftP (Parser.does_match [.Func] tokens mp6.2) fun mp7 =>
      if mp7.1 then
        ((Parser.run fuel (PCall.parse_params "anonymous function") tokens mp7.2).asTs).bind
          fun params p =>
        liftP (Parser.check_current .RBrace tokens p) fun b =>
        if b then
          (Parser.run fuel (PCall.function_body "anonymous function") tokens p).asE
        else
          liftP (Parser.previous tokens p) fun token =>
          ((Parser.run fuel PCall.expression tokens p).asE).bind fun e p =>
          PRes.ok (.func params [Node.STMT (.return_ token [e])]) p
      else
        let p := Parser.add_error ("unexpected token: " ++ Token.debug_fmt mp7.2.current) mp7.2
        liftP (Parser.advance tokens p) fun p =>
        PRes.ok .unknown p)
    | PCall.declaration =>
      -- Parser::declaration, with the lazy
      -- `check_current(Func) && check_next(Id)` guard of named functions
      PRes.outN (
      liftP (Parser.does_match [.Var] tokens p) fun mp =>
      if mp.1 then
        (Parser.run fuel PCall.var_declaration tokens mp.2).asN
      else
      let p := mp.2
      liftP (Parser.check_current .Func tokens p) fun b1 =>
      liftP (if b1 then Parser.check_next .Id tokens p else some Bool.false) fun b2 =>
      if b2 then
        liftP (Parser.advance tokens p) fun p =>
        (Parser.run fuel (PCall.function "function") tokens p).asN
      else
      liftP (Parser.does_match [.Struct] tokens p) fun mp2 =>
      if mp2.1 then
        (Parser.run fuel PCall.struct_declaration tokens mp2.2).asN
      else
        (Parser.run fuel PCall.statement tokens mp2.2).asN)
    | PCall.statement =>
      -- Parser::statement, dispatching on the cached current token
      (match p.current.kind with
      | .LBrace =>
        PRes.outN (
        liftP (Parser.advance tokens p) fun p =>
        ((Parser.run fuel PCall.parse_block tokens p).asNs).bind fun stmts p =>
        PRes.ok (Node.STMT (.block stmts)) p)
      | .If => Parser.run fuel PCall.if_stmt tokens p
      | .While => Parser.run fuel PCall.while_stmt tokens p
      | .For => Parser.run fuel PCall.for_stmt tokens p
      | .Return => Parser.run fuel PCall.return_stmt tokens p
      | .Break => Parser.run fuel PCall.break_stmt tokens p
      | .Import => Parser.run fuel PCall.import_stmt tokens p
      | .Continue => Parser.run fuel PCall.continue_stmt tokens p
      | _ => Parser.run fuel PCall.expr_stmt tokens p)
    | PCall.expr_stmt =>
      -- Parser::expr_stmt
      PRes.outN (
      ((Parser.run fuel PCall.expression tokens p).asE).bind fun e p =>
      liftP (Parser.expect .SColon "expected \x27;\x27" tokens p) fun p =>
      PRes.ok (Node.EXPR e) p)
    | PCall.continue_stmt =>
      -- Parser::continue_stmt
      PRes.outN (
      liftP (Parser.advance tokens p) fun p =>
      liftP (Parser.expect .SColon "expected \x27;\x27" tokens p) fun p =>
      PRes.ok (Node.STMT .continue_) p)
    | PCall.import_stmt =>
      -- Parser::import_stmt
      PRes.outN (
      let token := p.current
      liftP (Parser.advance tokens p) fun p =>
      ((Parser.run fuel PCall.expression tokens p).asE).bind fun name p =>
      liftP (Parser.expect .SColon "expected \x27;\x27" tokens p) fun p =>
      PRes.ok (Node.STMT (.import_ name token)) p)
    | PCall.if_stmt =>
      -- Parser::if_stmt, including the else-if right recursion guarded
      -- by `check_current(Else) && check_next(If)`
      PRes.outN (
      liftP (Parser.advance tokens p) fun p =>
      liftP (Parser.expect .LParen "expected \x27(\x27 after \x27if\x27" tokens p) fun p =>
      ((Parser.run fuel PCall.expression tokens p).asE).bind fun cond p =>
      liftP (Parser.expect .RParen "expected \x27)\x27 after if condition" tokens p) fun p =>
      ((Parser.run fuel PCall.statement tokens p).asN).bind fun then_ p =>
      liftP (Parser.check_current .Else tokens p) fun b1 =>
      liftP (if b1 then Parser.check_next .If tokens p else some Bool.false) fun b2 =>
      if b2 then
        liftP (Parser.advance tokens p) fun p =>
        ((Parser.run fuel PCall.if_stmt tokens p).asN).bind fun els p =>
        PRes.ok (Node.STMT (.if_ cond then_ (some els))) p
      else
      liftP (Parser.check_current .Else tokens p) fun b3 =>
      if b3 then
        ((Parser.run fuel PCall.statement tokens p).asN).bind fun els p =>
        PRes.ok (Node.STMT (.if_ cond then_ (some els))) p
      else
        PRes.ok (Node.STMT (.if_ cond then_ none)) p)
    | PCall.break_stmt =>
      -- Parser::break_stmt
      PRes.outN (
      liftP (Parser.advance tokens p) fun p =>
      liftP (Parser.expect .SColon "expected \x27;\x27" tokens p) fun p =>
      PRes.ok (Node.STMT .break_) p)
    | PCall.return_stmt =>
      -- Parser::return_stmt; the value loop of the source never
      -- consumes the comma it checks
      PRes.outN (
      let token := p.current
      liftP (Parser.advance tokens p) fun p =>
      liftP (Parser.check_current .SColon tokens p) fun b =>
      (if !b then (Parser.run fuel (PCall.return_values []) tokens p).asEs
       else PRes.ok [] p).bind fun values p =>
      liftP (Parser.expect .SColon "expected \x27;\x27" tokens p) fun p =>
      PRes.ok (Node.STMT (.return_ token values)) p)
    | PCall.return_values values =>
      -- value loop of Parser::return_stmt
      PRes.outEs (
      ((Parser.run fuel PCall.expression tokens p).asE).bind fun e p =>
      liftP (Parser.check_current .Comma tokens p) fun b =>
      if !b then
        PRes.ok (values ++ [e]) p
      else
        (Parser.run fuel (PCall.return_values (values ++ [e])) tokens p).asEs)
    | PCall.while_stmt =>
      -- Parser::while_stmt
      PRes.outN (
      let token := p.current
      liftP (Parser.advance tokens p) fun p =>
      liftP (Parser.expect .LParen "expected \x27(\x27 after \x27while\x27" tokens p) fun p =>
      ((Parser.run fuel PCall.expression tokens p).asE).bind fun cond p =>
      liftP (Parser.expect .RParen "expected \x27)\x27 after while condition" tokens p) fun p =>
      ((Parser.run fuel PCall.statement tokens p).asN).bind fun body p =>
      PRes.ok (Node.STMT (.while_ cond body token)) p)
    | PCall.for_stmt =>
      -- Parser::for_stmt: desugars into init, while with default-true
      -- condition, and body block plus increment
      PRes.outN (
      let token := p.current
      liftP (Parser.advance tokens p) fun p =>
      liftP (Parser.expect .LParen "expected \x27(\x27" tokens p) fun p =>
      (liftP (Parser.does_match [.SColon] tokens p) fun mp =>
        if mp.1 then
          PRes.ok none mp.2
        else
        liftP (Parser.does_match [.Var] tokens mp.2) fun mp2 =>
        if mp2.1 then
          ((Parser.run fuel PCall.var_declaration tokens mp2.2).asN).bind fun n p =>
          PRes.ok (some n) p
        else
          ((Parser.run fuel PCall.expr_stmt tokens mp2.2).asN).bind fun n p =>
          PRes.ok (some n) p
      ).bind fun init p =>
      liftP (Parser.check_current .SColon tokens p) fun b =>
      (if !b then
        ((Parser.run fuel PCall.expression tokens p).asE).bind fun e p => PRes.ok (some e) p
      else
        PRes.ok none p).bind fun condition p =>
      liftP (Parser.expect .SColon "expected \x27;\x27" tokens p) fun p =>
      liftP (Parser.check_current .RParen tokens p) fun b2 =>
      (if !b2 then
        ((Parser.run fuel PCall.expression tokens p).asE).bind fun e p => PRes.ok (some e) p
      else
        PRes.ok none p).bind fun increment p =>
      liftP (Parser.expect .RParen "expected \x27)\x27" tokens p) fun p =>
      ((Parser.run fuel PCall.statement tokens p).asN).bind fun body p =>
      let body := match increment with
        | some inc => Node.STMT (.block [body, Node.EXPR inc])
        | none => body
      let new_condition := match condition with
        | some cond => cond
        | none => Expr.literal .True ""
      let body := Node.STMT (.while_ new_condition body token)
      let body := match init with
        | some i => Node.STMT (.block [i, body])
        | none => body
      PRes.ok body p)
    | PCall.function kind =>
      -- Parser::function
      PRes.outN (
      liftP (Parser.expect .Id ("expected " ++ kind ++ " name") tokens p) fun p =>
      liftP (Parser.previous tokens p) fun name =>
      ((Parser.run fuel (PCall.function_body kind) tokens p).asE).bind fun body p =>
      PRes.ok (Node.STMT (.func name body)) p)
    | PCall.function_body kind =>
      -- Parser::function_body
      PRes.outE (
      ((Parser.run fuel (PCall.parse_params kind) tokens p).asTs).bind fun params p =>
      liftP (Parser.expect .LBrace ("expected \x27\x7b\x27 before " ++ kind ++ " body") tokens p)
        fun p =>
      ((Parser.run fuel PCall.parse_block tokens p).asNs).bind fun body p =>
      PRes.ok (.func params body) p)
    | PCall.parse_params kind =>
      -- Parser::parse_params
      PRes.outTs (
      liftP (Parser.expect .LParen ("expected \x27(\x27 after " ++ kind ++ " name") tokens p)
        fun p =>
      liftP (Parser.check_current .RParen tokens p) fun b =>
      (if !b then (Parser.run fuel (PCall.params_loop []) tokens p).asTs
       else PRes.ok [] p).bind fun params p =>
      liftP (Parser.expect .RParen "expected \x27)\x27 after parameters" tokens p) fun p =>
      PRes.ok params p)
    | PCall.params_loop params =>
      -- parameter loop of Parser::parse_params
      PRes.outTs (
      liftP (Parser.expect .Id "expected an identifier" tokens p) fun p =>
      liftP (Parser.previous tokens p) fun param =>
      liftP (Parser.does_match [.Comma] tokens p) fun mp =>
      if !mp.1 then
        PRes.ok (params ++ [param]) mp.2
      else
        (Parser.run fuel (PCall.params_loop (params ++ [param])) tokens mp.2).asTs)
    | PCall.parse_block =>
      -- Parser::parse_block
      PRes.outNs (
      ((Parser.run fuel (PCall.block_loop []) tokens p).asNs).bind fun stmts p =>
      liftP (Parser.expect .RBrace "expected \x27\x7d\x27 after a block" tokens p) fun p =>
      PRes.ok stmts p)
    | PCall.block_loop stmts =>
      -- while loop of Parser::parse_block, with the lazy
      -- `!check_current(RBrace) && !is_end` guard
      PRes.outNs (
      liftP (Parser.check_current .RBrace tokens p) fun b1 =>
      if b1 then
        PRes.ok stmts p
      else
      liftP (Parser.is_end tokens p) fun e =>
      if e then
        PRes.ok stmts p
      else
        ((Parser.run fuel PCall.declaration tokens p).asN).bind fun n p =>
        (Parser.run fuel (PCall.block_loop (stmts ++ [n])) tokens p).asNs)
    | PCall.var_declaration =>
      -- Parser::var_declaration, with the Null-literal default
      PRes.outN (
      liftP (Parser.expect .Id "Expected an identifier" tokens p) fun p =>
      liftP (Parser.previous tokens p) fun name =>
      liftP (Parser.does_match [.Equal] tokens p) fun mp =>
      (if mp.1 then
        (Parser.run fuel PCall.expression tokens mp.2).asE
      else
        PRes.ok (Expr.literal .Null "") mp.2).bind fun init p =>
      liftP (Parser.expect .SColon "expected \x27;\x27" tokens p) fun p =>
      PRes.ok (Node.STMT (.variable_ name init)) p)
    | PCall.struct_declaration =>
      -- Parser::struct_declaration
      PRes.outN (
      liftP (Parser.expect .Id "expected an identifier" tokens p) fun p =>
      liftP (Parser.previous tokens p) fun token =>
      liftP (Parser.expect .LBrace "expected \x27\x7b\x27" tokens p) fun p =>
      ((Parser.run fuel (PCall.struct_loop [] []) tokens p).asFT).bind fun ft p =>
      liftP (Parser.expect .RBrace "expected \x27\x7d\x27" tokens p) fun p =>
      PRes.ok (Node.STMT (.struct_ token ft.1 ft.2)) p)
    | PCall.struct_loop fields types =>
      -- field while loop of Parser::struct_declaration, including the
      -- case-insensitive type-info table on the cached current token
      liftP (Parser.check_current .RBrace tokens p) fun b =>
      if b then
        PRes.ok (POut.ft fields types) p
      else
        liftP (Parser.expect .Id "expected an identifier" tokens p) fun p =>
        liftP (Parser.previous tokens p) fun f =>
        let fields := fields ++ [f]
        liftP (Parser.expect .Colon "expected \x27:\x27" tokens p) fun p =>
        let tp : List TypeInfo × ParserSt := match p.current.kind with
          | .Id =>
            (types ++ [match p.current.value.toLower with
              | "string" => TypeInfo.Str
              | "number" => TypeInfo.Num
              | "bool" => TypeInfo.Bool
              | "any" => TypeInfo.Any
              | "list" => TypeInfo.List
              | "map" => TypeInfo.Map
              | _ => TypeInfo.Id p.current], p)
          | _ => (types, Parser.add_error "invalid type info" p)
        let types := tp.1
        let p := tp.2
        liftP (Parser.advance tokens p) fun p =>
        liftP (Parser.check_current .RBrace tokens p) fun b2 =>
        if b2 then
          PRes.ok (POut.ft fields types) p
        else
          liftP (Parser.expect .Comma "expected \x27,\x27" tokens p) fun p =>
          Parser.run fuel (PCall.struct_loop fields types) tokens p
    | PCall.parse_loop =>
      -- the `while !self.is_end(tokens)` loop of Parser::parse,
      -- pushing each declaration onto `statements`
      PRes.outU (
      liftP (Parser.is_end tokens p) fun e =>
      if e then
        PRes.ok () p
      else
        ((Parser.run fuel PCall.declaration tokens p).asN).bind fun node p =>
        (Parser.run fuel PCall.parse_loop tokens
          { p with statements := p.statements ++ [node] }).asU)

/-- Parser.expression mirrors `Parser::expression`. -/
def Parser.expression (fuel : Nat) (tokens : List Token) (p : ParserSt) : PRes Expr :=
  (Parser.run fuel PCall.expression tokens p).asE

/-- Parser.assignment mirrors `Parser::assignment`. -/
def Parser.assignment (fuel : Nat) (tokens : List Token) (p : ParserSt) : PRes Expr :=
  (Parser.run fuel PCall.assignment tokens p).asE

/-- Parser.primary mirrors `Parser::primary`. -/
def Parser.primary (fuel : Nat) (tokens : List Token) (p : ParserSt) : PRes Expr :=
  (Parser.run fuel PCall.primary tokens p).asE

/-- Parser.call mirrors `Parser::call`. -/
def Parser.call (fuel : Nat) (tokens : List Token) (p : ParserSt) (arg : Option Expr) :
    PRes Expr :=
  (Parser.run fuel (PCall.call arg) tokens p).asE

/-- Parser.finish_call mirrors `Parser::finish_call`. -/
def Parser.finish_call (fuel : Nat) (tokens : List Token) (p : ParserSt) (callee : Expr)
    (arg : Option Expr) : PRes Expr :=
  (Parser.run fuel (PCall.finish_call callee arg) tokens p).asE

/-- Parser.declaration mirrors `Parser::declaration`. -/
def Parser.declaration (fuel : Nat) (tokens : List Token) (p : ParserSt) : PRes Node :=
  (Parser.run fuel PCall.declaration tokens p).asN

/-- Parser.statement mirrors `Parser::statement`. -/
def Parser.statement (fuel : Nat) (tokens : List Token) (p : ParserSt) : PRes Node :=
  (Parser.run fuel PCall.statement tokens p).asN

/-- Parser.if_stmt mirrors `Parser::if_stmt`. -/
def Parser.if_stmt (fuel : Nat) (tokens : List Token) (p : ParserSt) : PRes Node :=
  (Parser.run fuel PCall.if_stmt tokens p).asN

/-- Parser.for_stmt mirrors `Parser::for_stmt`. -/
def Parser.for_stmt (fuel : Nat) (tokens : List Token) (p : ParserSt) : PRes Node :=
  (Parser.run fuel PCall.for_stmt tokens p).asN

/-- parse mirrors `Parser::new` (whose `tokens[0]` panics on an empty
stream) followed by `Parser::parse`. -/
def Parser.parse (fuel : Nat) (tokens : List Token) : PRes Unit :=
  match tokens.get? 0 with
  | none => PRes.panic
  | some t => (Parser.run fuel PCall.parse_loop tokens ⟨0, t, [], []⟩).asU

/-- isPanic tests whether a lexer run ended in a Rust panic. -/
def Res.isPanic {α : Type} : Res α → Bool
  | Res.panic _ => Bool.true
  | _ => Bool.false

/-- toksOf projects the kind/text pairs of the tokens accumulated at
the end (normal or panicked) of a lexer run. -/
def Res.toksOf : Res LexerSt → Option (List (TokenType × String))
  | Res.ok l => some (l.tokens.map (fun t => (t.kind, t.value)))
  | Res.panic l => some (l.tokens.map (fun t => (t.kind, t.value)))
  | Res.out => none

/-- stmtsOf projects the statements accumulated by a parser run. -/
def PRes.stmtsOf {α : Type} : PRes α → Option (List Node)
  | PRes.ok _ p => some p.statements
  | _ => none

/-- errsOf projects the diagnostics accumulated by a parser run. -/
def PRes.errsOf {α : Type} : PRes α → Option (List ParserError)
  | PRes.ok _ p => some p.errors
  | _ => none

/-- parse_print is the parse-then-pretty-print pipeline used by the
golden-string tests of `parser.rs`. -/
def Parser.parse_print (fuel : Nat) (tokens : List Token) : Option String :=
  match Parser.parse fuel tokens with
  | PRes.ok _ p => Node.pretty_print fuel p.statements
  | _ => none

/-- tok builds a punctuation/keyword token (empty text) at the uniform
position (1,1); the claim token streams place every token at (1,1) so
that structural AST equality compares shape alone. -/
def tok (kind : TokenType) : Token := ⟨kind, "", 1, 1⟩

/-- idTok builds an identifier token at position (1,1). -/
def idTok (s : String) : Token := ⟨TokenType.Id, s, 1, 1⟩

/-- numTok builds a numeric-literal token at position (1,1). -/
def numTok (s : String) : Token := ⟨TokenType.Num, s, 1, 1⟩

/-- is_end_false: the guard of `Lexer::is_end` demands
`len ≤ c` and `c + 1 < len` at once, which is unsatisfiable, so the
lexer never reports end of input. -/
theorem Lexer.is_end_false (l : LexerSt) : Lexer.is_end l = false := by
  unfold Lexer.is_end
  by_cases h : l.source.length ≤ l.c
  · simp [h, Nat.le_succ_of_le h]
  · simp [h]

/-- string_loop_out: positioned at a `"`, the string-collection loop
of `Lexer::tokenize` never advances and never exits, whatever the
fuel. -/
theorem Lexer.string_loop_out (fuel : Nat) (l : LexerSt) (value : String)
    (h : l.current = '"') : Lexer.string_loop fuel l value = Res.out := by
  induction fuel generalizing l value with
  | zero => rfl
  | succ n ih =>
    rw [Lexer.string_loop]
    simp only [Lexer.is_end_false, h]
    norm_num
    exact ih l (value.push '"') h

/-- semi_step: with the cursor parked at offset 0 on the source `;`,
one iteration of the main loop emits one more `SColon` token and moves
nothing, because the loop-top advance is skipped while `c == 0`. -/
theorem Lexer.semi_step (fuel : Nat) (e : List ParserError) (t : List Token)
    (li co : Nat) :
    Lexer.step fuel ⟨e, [';'], t, li, co, 0, ';'⟩ =
      Res.ok ⟨e, [';'], t ++ [⟨TokenType.SColon, "", li, co⟩], li, co, 0, ';'⟩ := rfl

/-- semi_hang: on the source `;` the main loop of `Lexer::tokenize`
re-reads the first character forever, exhausting any fuel. -/
theorem Lexer.semi_hang (fuel : Nat) (e : List ParserError) (t : List Token)
    (li co : Nat) :
    Lexer.tokenize_loop fuel ⟨e, [';'], t, li, co, 0, ';'⟩ = Res.out := by
  induction fuel generalizing t with
  | zero => rfl
  | succ n ih =>
    rw [Lexer.tokenize_loop]
    simp only [Lexer.is_end_false, Lexer.semi_step]
    exact ih (t ++ [⟨TokenType.SColon, "", li, co⟩])

/-- C1: the spec claims `tokenize` always terminates with an
end-of-input-terminated stream and never panics or hangs.  The code
violates this: `is_end` is unsatisfiable (first conjunct), so on the
source `;` the main loop re-reads the first character forever (second
conjunct), and on the source `ab` the identifier loop advances past
the end of the source and panics on `Option::unwrap` (third
conjunct).  No end-of-input sentinel is ever appended either. -/
theorem C1_tokenize_termination_code_bug :
    (∀ l : LexerSt, Lexer.is_end l = false) ∧
    (∀ fuel : Nat, Lexer.tokenize fuel [';'] = Res.out) ∧
    Res.isPanic (Lexer.tokenize 100 "ab".toList) = Bool.true := by
  refine ⟨Lexer.is_end_false, fun fuel => ?_, rfl⟩
  have h : Lexer.tokenize fuel [';'] =
      Lexer.tokenize_loop fuel ⟨[], [';'], [], 1, 1, 0, ';'⟩ := rfl
  rw [h]
  exact Lexer.semi_hang fuel [] [] 1 1

/-- string_source_step: on the source `"a"` (a well-formed string
literal) the first loop iteration hands control to the
string-collection loop. -/
theorem Lexer.string_source_step (fuel : Nat) :
    Lexer.step fuel ⟨[], ['"', 'a', '"'], [], 1, 1, 0, '"'⟩ =
      (match Lexer.string_loop fuel ⟨[], ['"', 'a', '"'], [], 1, 1, 0, '"'⟩ "" with
        | Res.panic p => Res.panic p
        | Res.out => Res.out
        | Res.ok (l', value) => Res.ok (Lexer.add_token l' TokenType.Str value)) := rfl

/-- C3: the spec's intended contract scans a string body to the
closing quote, emits a decoded `Str` token, and reports "unterminated
string" exactly on end of input.  The code's scan loop instead runs
while it is positioned AT a quote and never advances, so on the
well-formed literal `"a"` tokenization exhausts any fuel: no `Str`
token and no diagnostic is ever produced. -/
theorem C3_string_scan_code_bug :
    ∀ fuel : Nat, Lexer.tokenize fuel ['"', 'a', '"'] = Res.out := by
  intro fuel
  have h : Lexer.tokenize fuel ['"', 'a', '"'] =
      Lexer.tokenize_loop fuel ⟨[], ['"', 'a', '"'], [], 1, 1, 0, '"'⟩ := rfl
  rw [h]
  cases fuel with
  | zero => rfl
  | succ n =>
    rw [Lexer.tokenize_loop]
    simp only [Lexer.is_end_false, Lexer.string_source_step,
      Lexer.string_loop_out n ⟨[], ['"', 'a', '"'], [], 1, 1, 0, '"'⟩ "" rfl]
    rfl

/-- C9 counterexample: the source `<=-5 ` contains `-` directly
followed by a digit, yet the lexer emits a separate `Minus` operator
token and a `Num` token with text `5` (and then panics at end of
input) — no single `Num` token with text `-5` exists. -/
theorem C9_leading_minus_counterexample :
    Res.toksOf (Lexer.tokenize 100 "<=-5 ".toList) =
      some [(TokenType.LTEq, ""), (TokenType.Minus, ""), (TokenType.Num, "5")] ∧
    Res.isPanic (Lexer.tokenize 100 "<=-5 ".toList) = Bool.true := ⟨rfl, rfl⟩

/-- C9 amended: the `-` match arm of `Lexer::tokenize` handles every
`-`, so unless the next character is `-` or `=` (compound operators) a
`-` lexes as the Minus operator token even when directly followed by a
digit; the leading-minus branch of the number scanner is dead code. -/
theorem C9_minus_lexes_as_minus_token (fuel : Nat) (l : LexerSt) (d : Char)
    (hc : l.current = '-') (hn : Lexer.next_char l = some d)
    (hd1 : d ≠ '-') (hd2 : d ≠ '=') :
    Lexer.step_match fuel l = Res.ok (Lexer.add_no_value_token l TokenType.Minus) := by
  obtain ⟨er, src, tks, li, co, c, cur⟩ := l
  simp only [LexerSt.current] at hc
  subst hc
  simp only [Lexer.step_match]
  rw [hn]
  simp [hd1, hd2]

/-- C9 amended witness: on the source `-5` the first step emits the
Minus operator token. -/
theorem C9_minus_lexes_as_minus_token_witness :
    Lexer.step_match 5 ⟨[], ['-', '5'], [], 1, 1, 0, '-'⟩ =
      Res.ok (Lexer.add_no_value_token ⟨[], ['-', '5'], [], 1, 1, 0, '-'⟩ TokenType.Minus) :=
  C9_minus_lexes_as_minus_token 5 ⟨[], ['-', '5'], [], 1, 1, 0, '-'⟩ '5' rfl rfl
    (by decide) (by decide)

/-- C2: the spec claims `parse` never panics on an EOF-terminated
stream.  On the stream `[If, EOF]` the parser panics: `if_stmt`
consumes `If`, the missing `(` only records a diagnostic, and
`primary`, facing `EOF`, takes the unexpected-token branch whose
`advance` executes `tokens[tokens.len()]` — out of bounds (second
conjunct exhibits that failing `advance` step in isolation). -/
theorem C2_parse_no_abort_code_bug :
    Parser.parse 50 [tok .If, tok .EOF] = PRes.panic ∧
    Parser.advance [tok .If, tok .EOF] ⟨1, tok .EOF, [], []⟩ = none := ⟨rfl, rfl⟩

/-- forTokens is the token stream the spec's lexing rules produce for
`for (let i = 0; i < 10; i++) \x7b println(i); \x7d`, every token at
position (1,1). -/
def forTokens : List Token :=
  [tok .For, tok .LParen, tok .Var, idTok "i", tok .Equal, numTok "0", tok .SColon,
   idTok "i", tok .LT, numTok "10", tok .SColon, idTok "i", tok .DPlus, tok .RParen,
   tok .LBrace, idTok "println", tok .LParen, idTok "i", tok .RParen, tok .SColon,
   tok .RBrace, tok .EOF]

/-- C7: the golden test of `parser.rs` demands that tokenize → parse →
print on the for-loop source yield the golden string.  The lexer
panics on that very source before finishing (first conjunct), so the
pipeline never yields any string; parse + print on the correctly
tokenized stream do yield exactly the golden string with no
diagnostics (second and third conjuncts), so the parse/print half of
the claim is right and the lexer is the bug. -/
theorem C7_for_loop_golden_code_bug :
    Res.isPanic (Lexer.tokenize 500
      "for (let i = 0; i < 10; i++) \x7b println(i); \x7d".toList) = Bool.true ∧
    Parser.parse_print 100 forTokens =
      some "(block (var i Num) (while ((LT i Num)) (block (block (println i)) (assign i (DPlus i Num)))))" ∧
    (Parser.parse 100 forTokens).errsOf = some [] := ⟨rfl, rfl, rfl⟩

/-- addTokens is the token stream the spec's lexing rules produce for
`let add = fn (x, y) x + y;` — the anonymous-function keyword the
keyword table actually maps is `fn` — every token at position (1,1). -/
def addTokens : List Token :=
  [tok .Var, idTok "add", tok .Equal, tok .Func, tok .LParen, idTok "x", tok .Comma,
   idTok "y", tok .RParen, idTok "x", tok .Plus, idTok "y", tok .SColon, tok .EOF]

/-- C8: the golden test of `parser.rs` uses the source
`let add = func (x, y) x + y;`, but the keyword table maps `fn`, not
`func` (first two conjuncts), and the lexer panics on that source at
end of input anyway (third conjunct), so the pipeline never yields the
golden string; parse + print on the intended `fn`-keyword stream do
yield exactly the golden string, wrapping the bare expression in an
implicit Return (fourth and fifth conjuncts). -/
theorem C8_anonymous_func_golden_code_bug :
    Lexer.keyword "func" = none ∧
    Lexer.keyword "fn" = some TokenType.Func ∧
    Res.isPanic (Lexer.tokenize 500 "let add = func (x, y) x + y;".toList) = Bool.true ∧
    Parser.parse_print 100 addTokens =
      some "(var add (lambda (x y) (return (Plus x y))))" ∧
    (Parser.parse 100 addTokens).errsOf = some [] := ⟨rfl, rfl, rfl, rfl, rfl⟩

/-- C4 counterexample: on the stream `[ ;` the parser returns the
program `[Unknown]` with an EMPTY diagnostic list — the list-literal
gap of `primary` yields `Unknown` backed by no diagnostic, refuting
"every Unknown corresponds to at least one diagnostic". -/
theorem C4_unknown_without_diagnostic_counterexample :
    (Parser.parse 20 [tok .LBracket, tok .SColon, tok .EOF]).stmtsOf =
      some [Node.EXPR Expr.unknown] ∧
    (Parser.parse 20 [tok .LBracket, tok .SColon, tok .EOF]).errsOf = some [] := ⟨rfl, rfl⟩

/-- callFAB is the AST of `f(a, b)` (tokens at the uniform position):
a call of `f` with arguments `[a, b]`, site token the closing paren. -/
def callFAB : Expr :=
  Expr.call (Expr.variable_ (idTok "f"))
    [Expr.variable_ (idTok "a"), Expr.variable_ (idTok "b")] (tok .RParen)

/-- C6: with every token at the uniform position (1,1), the three
statements `a |> f(b);`, `f(a, b);` and `f(a) <| b;` parse to the
IDENTICAL AST `f(a, b)` with no diagnostics: the forward pipe prepends
the piped expression as first argument and the backward pipe appends
its right operand as last argument. -/
theorem C6_pipe_desugaring_confirmed :
    (Parser.parse 40 [idTok "a", tok .RPipe, idTok "f", tok .LParen, idTok "b",
        tok .RParen, tok .SColon, tok .EOF]).stmtsOf = some [Node.EXPR callFAB] ∧
    (Parser.parse 40 [idTok "f", tok .LParen, idTok "a", tok .Comma, idTok "b",
        tok .RParen, tok .SColon, tok .EOF]).stmtsOf = some [Node.EXPR callFAB] ∧
    (Parser.parse 40 [idTok "f", tok .LParen, idTok "a", tok .RParen, tok .LPipe,
        idTok "b", tok .SColon, tok .EOF]).stmtsOf = some [Node.EXPR callFAB] ∧
    (Parser.parse 40 [idTok "a", tok .RPipe, idTok "f", tok .LParen, idTok "b",
        tok .RParen, tok .SColon, tok .EOF]).errsOf = some [] ∧
    (Parser.parse 40 [idTok "f", tok .LParen, idTok "a", tok .Comma, idTok "b",
        tok .RParen, tok .SColon, tok .EOF]).errsOf = some [] ∧
    (Parser.parse 40 [idTok "f", tok .LParen, idTok "a", tok .RParen, tok .LPipe,
        idTok "b", tok .SColon, tok .EOF]).errsOf = some [] :=
  ⟨rfl, rfl, rfl, rfl, rfl, rfl⟩

/-- xPlusEq1 is the AST the parser actually produces for `x += 1;`:
the Binary op is the compound token PlusEq itself. -/
def xPlusEq1 : Expr :=
  Expr.assign (idTok "x")
    (Expr.binary (Expr.variable_ (idTok "x")) (Expr.literal .Num "1") (tok .PlusEq))

/-- xEqXPlus1 is the AST of `x = x + 1;`: the Binary op is Plus. -/
def xEqXPlus1 : Expr :=
  Expr.assign (idTok "x")
    (Expr.binary (Expr.variable_ (idTok "x")) (Expr.literal .Num "1") (tok .Plus))

/-- C5 counterexample: with every token at the uniform position,
`x += 1;` and `x = x + 1;` parse to DIFFERENT ASTs — the desugared
Binary keeps the compound operator token PlusEq, not the base operator
Plus, as the printed forms `(assign x (PlusEq x Num))` versus
`(assign x (Plus x Num))` show. -/
theorem C5_compound_assign_counterexample :
    (Parser.parse 30 [idTok "x", tok .PlusEq, numTok "1", tok .SColon, tok .EOF]).stmtsOf =
      some [Node.EXPR xPlusEq1] ∧
    (Parser.parse 30 [idTok "x", tok .Equal, idTok "x", tok .Plus, numTok "1",
        tok .SColon, tok .EOF]).stmtsOf = some [Node.EXPR xEqXPlus1] ∧
    xPlusEq1 ≠ xEqXPlus1 ∧
    Expr.print 20 xPlusEq1 = some "(assign x (PlusEq x Num))" ∧
    Expr.print 20 xEqXPlus1 = some "(assign x (Plus x Num))" := by
  refine ⟨rfl, rfl, fun h => ?_, rfl, rfl⟩
  have h2 := congrArg (Expr.print 20) h
  rw [show Expr.print 20 xPlusEq1 = some "(assign x (PlusEq x Num))" from rfl,
    show Expr.print 20 xEqXPlus1 = some "(assign x (Plus x Num))" from rfl] at h2
  exact absurd h2 (by decide)

/-- C5 amended: a compound assignment on a Variable desugars to
`Assign\x7bname, Binary\x7bleft: lhs, right: rhs, op\x7d\x7d` where
`op` is the compound operator token itself (PlusEq, MinusEq, MulEq,
DivEq, ModEq), so `x += 1;` parses as `x = x + 1;` would except that
the Binary op is PlusEq rather than Plus; likewise `x++;`/`x--;`
desugar with numeric literal `1` and op DPlus/DMinus. -/
theorem C5_compound_assign_desugar_amended :
    (∀ n v : String, ∀ k : TokenType,
      k ∈ [TokenType.PlusEq, TokenType.MinusEq, TokenType.MulEq,
        TokenType.DivEq, TokenType.ModEq] →
      (Parser.parse 30 [idTok n, tok k, numTok v, tok .SColon, tok .EOF]).stmtsOf =
        some [Node.EXPR (Expr.assign (idTok n)
          (Expr.binary (Expr.variable_ (idTok n)) (Expr.literal .Num v) (tok k)))]) ∧
    (∀ n : String, ∀ k : TokenType, k ∈ [TokenType.DPlus, TokenType.DMinus] →
      (Parser.parse 30 [idTok n, tok k, tok .SColon, tok .EOF]).stmtsOf =
        some [Node.EXPR (Expr.assign (idTok n)
          (Expr.binary (Expr.variable_ (idTok n)) (Expr.literal .Num "1") (tok k)))]) := by
  constructor
  · intro n v k hk
    simp only [List.mem_cons, List.not_mem_nil, or_false] at hk
    rcases hk with rfl | rfl | rfl | rfl | rfl <;> rfl
  · intro n k hk
    simp only [List.mem_cons, List.not_mem_nil, or_false] at hk
    rcases hk with rfl | rfl <;> rfl

/-- C5 amended witness: the amended desugaring evaluated at `x += 1;`
and `x++;`. -/
theorem C5_compound_assign_desugar_amended_witness :
    (Parser.parse 30 [idTok "x", tok .PlusEq, numTok "1", tok .SColon, tok .EOF]).stmtsOf =
      some [Node.EXPR (Expr.assign (idTok "x")
        (Expr.binary (Expr.variable_ (idTok "x")) (Expr.literal .Num "1")
          (tok .PlusEq)))] ∧
    (Parser.parse 30 [idTok "x", tok .DPlus, tok .SColon, tok .EOF]).stmtsOf =
      some [Node.EXPR (Expr.assign (idTok "x")
        (Expr.binary (Expr.variable_ (idTok "x")) (Expr.literal .Num "1")
          (tok .DPlus)))] :=
  ⟨C5_compound_assign_desugar_amended.1 "x" "1" TokenType.PlusEq (by simp),
   C5_compound_assign_desugar_amended.2 "x" TokenType.DPlus (by simp)⟩

/-- C10: whenever the cursor is not on the end-of-input token,
`check_next` returns exactly what `check_current` returns — it indexes
`tokens[self.c]`, the current token, never the following one, so the
look-ahead guards of `declaration` and `if_stmt` can only observe the
current token. -/
theorem C10_check_next_inspects_current (kind : TokenType) (tokens : List Token)
    (p : ParserSt) (t : Token) (h : tokens.get? p.c = some t)
    (hne : t.kind ≠ TokenType.EOF) :
    Parser.check_next kind tokens p = Parser.check_current kind tokens p := by
  have hb : (t.kind == TokenType.EOF) = false := by
    simpa using hne
  unfold Parser.check_next Parser.is_end Parser.check_current
  rw [h]
  simp only [Option.map_some', hb]

/-- C10 witness: with the cursor on an `If` token, `check_next` and
`check_current` agree. -/
theorem C10_check_next_inspects_current_witness :
    Parser.check_next .SColon [tok .If, tok .EOF] ⟨0, tok .If, [], []⟩ =
      Parser.check_current .SColon [tok .If, tok .EOF] ⟨0, tok .If, [], []⟩ :=
  C10_check_next_inspects_current .SColon [tok .If, tok .EOF] ⟨0, tok .If, [], []⟩
    (tok .If) rfl (by decide)

/-- liftP_ok inverts a successful panic-lifted step. -/
theorem liftP_ok {α β : Type} (o : Option α) (k : α → PRes β) (v : β) (p' : ParserSt)
    (h : liftP o k = PRes.ok v p') : ∃ a, o = some a ∧ k a = PRes.ok v p' := by
  cases o with
  | none => simp [liftP] at h
  | some a => exact ⟨a, rfl, h⟩

/-- bind_ok inverts a successful bind. -/
theorem PRes.bind_ok {α β : Type} (X : PRes α) (k : α → ParserSt → PRes β) (v : β)
    (p' : ParserSt) (h : X.bind k = PRes.ok v p') :
    ∃ a pa, X = PRes.ok a pa ∧ k a pa = PRes.ok v p' := by
  cases X with
  | ok a pa => exact ⟨a, pa, rfl, h⟩
  | panic => simp [PRes.bind] at h
  | out => simp [PRes.bind] at h

/-- asE_ok inverts a successful expression projection. -/
theorem PRes.asE_ok (X : PRes POut) (e : Expr) (p' : ParserSt)
    (h : X.asE = PRes.ok e p') : X = PRes.ok (POut.expr e) p' := by
  cases X with
  | ok w q => cases w <;> simp_all [PRes.asE]
  | panic => simp [PRes.asE] at h
  | out => simp [PRes.asE] at h

/-- outE_ok inverts a successful expression injection. -/
theorem PRes.outE_ok (X : PRes Expr) (w : POut) (p' : ParserSt)
    (h : PRes.outE X = PRes.ok w p') : ∃ e, w = POut.expr e ∧ X = PRes.ok e p' := by
  cases X <;> simp_all [PRes.outE]

/-- does_match_false: an unmatched `does_match` leaves the state
untouched. -/
theorem Parser.does_match_false (ks : List TokenType) (tokens : List Token)
    (p p' : ParserSt) (h : Parser.does_match ks tokens p = some (Bool.false, p')) :
    p' = p := by
  induction ks with
  | nil =>
    simp [Parser.does_match] at h
    exact h.symm
  | cons k ks ih =>
    rw [Parser.does_match] at h
    cases hc : Parser.check_current k tokens p with
    | none => rw [hc] at h; simp at h
    | some b =>
      rw [hc] at h
      cases b with
      | false => exact ih h
      | true =>
        cases ha : Parser.advance tokens p with
        | none => rw [ha] at h; simp at h
        | some q => rw [ha] at h; simp at h

/-- does_match_true_single: a matched one-kind `does_match` means the
current token matched and exactly one `advance` ran. -/
theorem Parser.does_match_true_single (k : TokenType) (tokens : List Token)
    (p p' : ParserSt) (h : Parser.does_match [k] tokens p = some (Bool.true, p')) :
    Parser.check_current k tokens p = some Bool.true ∧
      Parser.advance tokens p = some p' := by
  rw [Parser.does_match] at h
  cases hc : Parser.check_current k tokens p with
  | none => rw [hc] at h; simp at h
  | some b =>
    rw [hc] at h
    cases b with
    | false =>
      rw [Parser.does_match] at h
      simp at h
    | true =>
      refine ⟨rfl, ?_⟩
      cases ha : Parser.advance tokens p with
      | none => rw [ha] at h; simp at h
      | some q =>
        rw [ha] at h
        simp only [Option.map_some', Option.some.injEq, Prod.mk.injEq, true_and] at h
        rw [h]

/-- advance_some: a successful `advance` moves the cursor one token
forward and touches neither the diagnostics nor the statements. -/
theorem Parser.advance_some (tokens : List Token) (p p' : ParserSt)
    (h : Parser.advance tokens p = some p') :
    p'.c = p.c + 1 ∧ p'.errors = p.errors ∧ p'.statements = p.statements := by
  unfold Parser.advance Parser.is_end at h
  cases h0 : tokens.get? p.c with
  | none => rw [h0] at h; simp at h
  | some t =>
    rw [h0] at h
    simp only [Option.map_some'] at h
    cases hb : (t.kind == TokenType.EOF) with
    | true =>
      rw [hb] at h
      rw [List.get?_eq_none.mpr (le_refl tokens.length)] at h
      simp at h
    | false =>
      rw [hb] at h
      cases h1 : tokens.get? (p.c + 1) with
      | none => rw [h1] at h; simp at h
      | some t' =>
        rw [h1] at h
        simp only [Option.map_some', Option.some.injEq] at h
        rw [← h]
        exact ⟨rfl, rfl, rfl⟩

/-- run_primary_eq restates the `primary` arm of `Parser.run` as an
equation usable in rewriting. -/
theorem Parser.run_primary_eq (fuel : Nat) (tokens : List Token) (p : ParserSt) :
    Parser.run (fuel + 1) PCall.primary tokens p =
      PRes.outE (
      liftP (Parser.does_match [.True, .False, .Null] tokens p) fun mp =>
      if mp.1 then
        liftP (Parser.previous tokens mp.2) fun token =>
        PRes.ok (.literal token.kind token.value) mp.2
      else
      liftP (Parser.does_match [.Num, .Str] tokens mp.2) fun mp2 =>
      if mp2.1 then
        liftP (Parser.previous tokens mp2.2) fun token =>
        PRes.ok (.literal token.kind token.value) mp2.2
      else
      liftP (Parser.does_match [.Id] tokens mp2.2) fun mp3 =>
      if mp3.1 then
        liftP (Parser.previous tokens mp3.2) fun token =>
        PRes.ok (.variable_ token) mp3.2
      else
      liftP (Parser.does_match [.LParen] tokens mp3.2) fun mp4 =>
      if mp4.1 then
        ((Parser.run fuel PCall.expression tokens mp4.2).asE).bind fun e p =>
        liftP (Parser.expect .RParen "expected \x27)\x27" tokens p) fun p =>
        PRes.ok (.group e) p
      else
      liftP (Parser.does_match [.LBracket] tokens mp4.2) fun mp5 =>
      if mp5.1 then
        PRes.ok .unknown mp5.2
      else
      liftP (Parser.does_match [.LBrace] tokens mp5.2) fun mp6 =>
      if mp6.1 then
        PRes.ok .unknown mp6.2
      else
      liftP (Parser.does_match [.Func] tokens mp6.2) fun mp7 =>
      if mp7.1 then
        ((Parser.run fuel (PCall.parse_params "anonymous function") tokens mp7.2).asTs).bind
          fun params p =>
        liftP (Parser.check_current .RBrace tokens p) fun b =>
        if b then
          (Parser.run fuel (PCall.function_body "anonymous function") tokens p).asE
        else
          liftP (Parser.previous tokens p) fun token =>
          ((Parser.run fuel PCall.expression tokens p).asE).bind fun e p =>
          PRes.ok (.func params [Node.STMT (.return_ token [e])]) p
      else
        let p := Parser.add_error ("unexpected token: " ++ Token.debug_fmt mp7.2.current) mp7.2
        liftP (Parser.advance tokens p) fun p =>
        PRes.ok .unknown p) := rfl

/-- run_function_body_eq restates the `function_body` arm of
`Parser.run` as an equation. -/
theorem Parser.run_function_body_eq (fuel : Nat) (kind : String) (tokens : List Token)
    (p : ParserSt) :
    Parser.run (fuel + 1) (PCall.function_body kind) tokens p =
      PRes.outE (
      ((Parser.run fuel (PCall.parse_params kind) tokens p).asTs).bind fun params p =>
      liftP (Parser.expect .LBrace ("expected \x27\x7b\x27 before " ++ kind ++ " body") tokens p)
        fun p =>
      ((Parser.run fuel PCall.parse_block tokens p).asNs).bind fun body p =>
      PRes.ok (.func params body) p) := rfl

/-- function_body_func: a successful `function_body` always returns a
`Func` expression (never `Unknown`). -/
theorem Parser.function_body_func (n : Nat) (kind : String) (tokens : List Token)
    (p p' : ParserSt) (e : Expr)
    (h : Parser.run n (PCall.function_body kind) tokens p = PRes.ok (POut.expr e) p') :
    ∃ ps bd, e = Expr.func ps bd := by
  cases n with
  | zero => simp [Parser.run] at h
  | succ m =>
    rw [Parser.run_function_body_eq] at h
    obtain ⟨e0, he0, hchain⟩ := PRes.outE_ok _ _ _ h
    obtain ⟨params, p1, -, h2⟩ := PRes.bind_ok _ _ _ _ hchain
    obtain ⟨p2, -, h3⟩ := liftP_ok _ _ _ _ h2
    obtain ⟨body, p3, -, h4⟩ := PRes.bind_ok _ _ _ _ h3
    simp only [PRes.ok.injEq] at h4
    obtain ⟨hfe, -⟩ := h4
    injection he0 with he
    exact ⟨params, body, by rw [he, ← hfe]⟩

/-- C4 amended: an `Unknown` produced by `primary` consumes exactly
one token and comes from exactly two sources: the deliberate list/map
literal gap (current token `[` or `{`), which records NO diagnostic,
or the unexpected-token branch, which records exactly one diagnostic. -/
theorem C4_primary_unknown_amended (fuel : Nat) (tokens : List Token) (p p' : ParserSt)
    (h : Parser.primary fuel tokens p = PRes.ok Expr.unknown p') :
    p'.c = p.c + 1 ∧ p'.statements = p.statements ∧
    (((Parser.check_current .LBracket tokens p = some Bool.true ∨
       Parser.check_current .LBrace tokens p = some Bool.true) ∧ p'.errors = p.errors) ∨
     p'.errors.length = p.errors.length + 1) := by
  cases fuel with
  | zero => simp [Parser.primary, Parser.run, PRes.asE] at h
  | succ n =>
    unfold Parser.primary at h
    have h' := PRes.asE_ok _ _ _ h
    rw [Parser.run_primary_eq] at h'
    obtain ⟨e0, he0, hc⟩ := PRes.outE_ok _ _ _ h'
    injection he0 with he0
    subst he0
    obtain ⟨⟨m1, q1⟩, hdm1, hcA⟩ := liftP_ok _ _ _ _ hc
    dsimp only at hcA
    cases m1 with
    | true =>
      rw [if_pos rfl] at hcA
      obtain ⟨tkn, -, hk⟩ := liftP_ok _ _ _ _ hcA
      simp at hk
    | false =>
      rw [if_neg Bool.false_ne_true] at hcA
      rw [Parser.does_match_false _ _ _ _ hdm1] at hcA
      obtain ⟨⟨m2, q2⟩, hdm2, hcB⟩ := liftP_ok _ _ _ _ hcA
      dsimp only at hcB
      cases m2 with
      | true =>
        rw [if_pos rfl] at hcB
        obtain ⟨tkn, -, hk⟩ := liftP_ok _ _ _ _ hcB
        simp at hk
      | false =>
        rw [if_neg Bool.false_ne_true] at hcB
        rw [Parser.does_match_false _ _ _ _ hdm2] at hcB
        obtain ⟨⟨m3, q3⟩, hdm3, hcC⟩ := liftP_ok _ _ _ _ hcB
        dsimp only at hcC
        cases m3 with
        | true =>
          rw [if_pos rfl] at hcC
          obtain ⟨tkn, -, hk⟩ := liftP_ok _ _ _ _ hcC
          simp at hk
        | false =>
          rw [if_neg Bool.false_ne_true] at hcC
          rw [Parser.does_match_false _ _ _ _ hdm3] at hcC
          obtain ⟨⟨m4, q4⟩, hdm4, hcD⟩ := liftP_ok _ _ _ _ hcC
          dsimp only at hcD
          cases m4 with
          | true =>
            rw [if_pos rfl] at hcD
            obtain ⟨e, pe, -, h2⟩ := PRes.bind_ok _ _ _ _ hcD
            obtain ⟨p2, -, h3⟩ := liftP_ok _ _ _ _ h2
            simp at h3
          | false =>
            rw [if_neg Bool.false_ne_true] at hcD
            rw [Parser.does_match_false _ _ _ _ hdm4] at hcD
            obtain ⟨⟨m5, q5⟩, hdm5, hcE⟩ := liftP_ok _ _ _ _ hcD
            dsimp only at hcE
            cases m5 with
            | true =>
              rw [if_pos rfl] at hcE
              simp only [PRes.ok.injEq, true_and] at hcE
              rw [hcE] at hdm5
              obtain ⟨hcc, hadv⟩ := Parser.does_match_true_single _ _ _ _ hdm5
              obtain ⟨hc1, he1, hs1⟩ := Parser.advance_some _ _ _ hadv
              exact ⟨hc1, hs1, Or.inl ⟨Or.inl hcc, he1⟩⟩
            | false =>
              rw [if_neg Bool.false_ne_true] at hcE
              rw [Parser.does_match_false _ _ _ _ hdm5] at hcE
              obtain ⟨⟨m6, q6⟩, hdm6, hcF⟩ := liftP_ok _ _ _ _ hcE
              dsimp only at hcF
              cases m6 with
              | true =>
                rw [if_pos rfl] at hcF
                simp only [PRes.ok.injEq, true_and] at hcF
                rw [hcF] at hdm6
                obtain ⟨hcc, hadv⟩ := Parser.does_match_true_single _ _ _ _ hdm6
                obtain ⟨hc1, he1, hs1⟩ := Parser.advance_some _ _ _ hadv
                exact ⟨hc1, hs1, Or.inl ⟨Or.inr hcc, he1⟩⟩
              | false =>
                rw [if_neg Bool.false_ne_true] at hcF
                rw [Parser.does_match_false _ _ _ _ hdm6] at hcF
                obtain ⟨⟨m7, q7⟩, hdm7, hcG⟩ := liftP_ok _ _ _ _ hcF
                dsimp only at hcG
                cases m7 with
                | true =>
                  rw [if_pos rfl] at hcG
                  obtain ⟨params, pP, -, h2⟩ := PRes.bind_ok _ _ _ _ hcG
                  obtain ⟨b, -, h3⟩ := liftP_ok _ _ _ _ h2
                  cases b with
                  | true =>
                    rw [if_pos rfl] at h3
                    have hrun := PRes.asE_ok _ _ _ h3
                    obtain ⟨ps, bd, habs⟩ :=
                      Parser.function_body_func _ _ _ _ _ _ hrun
                    simp at habs
                  | false =>
                    rw [if_neg Bool.false_ne_true] at h3
                    obtain ⟨tkn, -, h4⟩ := liftP_ok _ _ _ _ h3
                    obtain ⟨e, pe, -, h5⟩ := PRes.bind_ok _ _ _ _ h4
                    simp at h5
                | false =>
                  rw [if_neg Bool.false_ne_true] at hcG
                  rw [Parser.does_match_false _ _ _ _ hdm7] at hcG
                  obtain ⟨p2, hadv, hk⟩ := liftP_ok _ _ _ _ hcG
                  simp only [PRes.ok.injEq, true_and] at hk
                  rw [hk] at hadv
                  obtain ⟨hc1, he1, hs1⟩ := Parser.advance_some _ _ _ hadv
                  refine ⟨hc1, hs1, Or.inr ?_⟩
                  rw [he1]
                  simp [Parser.add_error]

/-- C4 amended witness: the amended characterization applied to a
concrete run of `primary` on `[ <eof>`, which consumes one token and
yields `Unknown` from the list-literal gap with no diagnostic. -/
theorem C4_primary_unknown_amended_witness :
    (ParserSt.mk 1 (tok .EOF) [] []).c = (ParserSt.mk 0 (tok .LBracket) [] []).c + 1 ∧
    (ParserSt.mk 1 (tok .EOF) [] []).statements =
      (ParserSt.mk 0 (tok .LBracket) [] []).statements ∧
    (((Parser.check_current .LBracket [tok .LBracket, tok .EOF]
          (ParserSt.mk 0 (tok .LBracket) [] []) = some Bool.true ∨
       Parser.check_current .LBrace [tok .LBracket, tok .EOF]
          (ParserSt.mk 0 (tok .LBracket) [] []) = some Bool.true) ∧
      (ParserSt.mk 1 (tok .EOF) [] []).errors =
        (ParserSt.mk 0 (tok .LBracket) [] []).errors) ∨
     (ParserSt.mk 1 (tok .EOF) [] []).errors.length =
       (ParserSt.mk 0 (tok .LBracket) [] []).errors.length + 1) :=
  C4_primary_unknown_amended 5 [tok .LBracket, tok .EOF]
    (ParserSt.mk 0 (tok .LBracket) [] []) (ParserSt.mk 1 (tok .EOF) [] []) rfl
